import Mathlib

/-!
A verification development for the `erads` request-admission and
abuse-detection engine.

The definitions below are a shallow embedding of the TypeScript backend:

* `src/backend/src/repositories/rateLimits.ts`  → `Erads.checkFixedWindow`,
  `Erads.checkSlidingWindow`, `Erads.RateLimitRepository.check`
* `src/backend/src/repositories/bans.ts`        → `Erads.BanRepository.*`
* `src/backend/src/repositories/requestLogs.ts` → `Erads.RequestLogRepository.*`,
  `Erads.SettingsRepository.isCountryBlocked`
* `src/backend/src/repositories/apiKeys.ts`     → `Erads.ApiKeyRepository.*`
* `src/backend/src/services/rateLimiter.ts`     → `Erads.RateLimiterService.*`
* `src/backend/src/ip-intel/repository.ts`,
  `src/backend/src/ip-intel/engine.ts`          → namespace `Erads.Intel`

Modelling conventions:

* The SQLite store is a record of lists, one list per table; `INSERT`
  prepends, so the head of a list is the most recently inserted row.
* Timestamps are epoch numbers: the service clock (`Date.now()`) is a
  natural number of milliseconds `nowMs`, SQLite's `datetime('now')` is the
  corresponding whole second `nowMs / 1000`.  The source stores timestamps
  as ISO-8601 / SQLite datetime strings and compares them as strings; with
  second precision these comparisons agree with numeric comparison on epoch
  seconds, which is what the model uses.
* JavaScript floating-point arithmetic in the sliding-window and baseline
  computations is modelled with exact rationals (`ℚ`).
* The SHA-256 hex digest of `apiKeys.ts` is an external primitive; all
  functions that hash take an explicit `hash : String → String` parameter
  and treat the digest opaquely, exactly as the source does.
-/

namespace Erads

/-- The `'ip' | 'api_key'` discriminator stored in the `identifier_type`
columns and threaded through every repository call. -/
inductive IdKind
  | ip
  | apiKey
deriving DecidableEq

/-- The decision codes of `CheckResponse.reason`
(`src/backend/src/types`: `'ok' | 'rate_limited' | 'banned' | 'geo_blocked'
| 'invalid_key' | 'expired_key'`). -/
inductive Reason
  | ok
  | rateLimited
  | banned
  | geoBlocked
  | invalidKey
  | expiredKey
deriving DecidableEq

/-- The string written into the `reason` column of `request_logs` for each
decision code. -/
def Reason.toCode : Reason → String
  | .ok => "ok"
  | .rateLimited => "rate_limited"
  | .banned => "banned"
  | .geoBlocked => "geo_blocked"
  | .invalidKey => "invalid_key"
  | .expiredKey => "expired_key"

/-- JavaScript truthiness of an optional string: `undefined` and `""` are
falsy.  Used for `request.apiKey || request.ip`, `if (!identifier)`,
`request.metadata?.country && ...` in `rateLimiter.ts`. -/
def truthy : Option String → Option String
  | some s => if s = "" then none else some s
  | none => none

/-! ### Kernel-computable rational arithmetic

The float arithmetic of the source is modelled in `ℚ`.  The standard
`ℚ` operations of the library are `@[irreducible]`, so the model uses the
following `mkRat`/`divInt` formulations, each proved equal to the standard
operation; this keeps every definition evaluable by `decide` on concrete
scenarios while theorems speak in ordinary rational arithmetic. -/

/-- Rational addition by cross-multiplication; equals `a + b`. -/
def qAdd (a b : ℚ) : ℚ := mkRat (a.num * b.den + b.num * a.den) (a.den * b.den)

/-- Rational subtraction by cross-multiplication; equals `a - b`. -/
def qSub (a b : ℚ) : ℚ := mkRat (a.num * b.den - b.num * a.den) (a.den * b.den)

/-- Rational multiplication; equals `a * b`. -/
def qMul (a b : ℚ) : ℚ := mkRat (a.num * b.num) (a.den * b.den)

/-- Rational division; equals `a / b` (with the `a / 0 = 0` convention of
the library, unreachable for the positive divisors of the model). -/
def qDiv (a b : ℚ) : ℚ := Rat.divInt (a.num * b.den) (a.den * b.num)

/-- A row of the `api_keys` table (`db/schema.ts`).  `key_hash` is the
SHA-256 hex digest of the plaintext key; the table never stores the
plaintext itself. -/
structure ApiKeyRow where
  id : String
  keyHash : String
  name : String
  rateLimit : Nat
  windowSeconds : Nat
  isActive : Bool
  createdAt : Nat
  expiresAt : Option Nat
  lastUsedAt : Option Nat
deriving DecidableEq

/-- A row of the `rate_limits` table.  The table has
`UNIQUE(identifier, identifier_type, window_start)`; the source updates the
row found for that key (by its `id`), which the model expresses by updating
in place the rows matching the key.  The random `nanoid` primary key plays
no further role and is omitted. -/
structure RateLimitRow where
  identifier : String
  identifierType : IdKind
  windowStart : Nat
  requestCount : Nat
  lastRequestAt : Nat
deriving DecidableEq

/-- A row of the `bans` table.  `expiresAt = none` models the SQL `NULL`
(permanent ban). -/
structure BanRow where
  identifier : String
  identifierType : IdKind
  reason : String
  bannedAt : Nat
  expiresAt : Option Nat
  createdBy : String
deriving DecidableEq

/-- A row of the `request_logs` table. -/
structure LogRow where
  identifier : String
  identifierType : IdKind
  path : String
  method : String
  allowed : Bool
  reason : String
  country : Option String
  city : Option String
  userAgent : Option String
  timestamp : Nat
deriving DecidableEq

/-- The persistent store: one list per table used by the admission
pipeline.  Lists are kept newest-first (inserts prepend). -/
structure Store where
  apiKeys : List ApiKeyRow
  rateLimits : List RateLimitRow
  bans : List BanRow
  requestLogs : List LogRow
deriving DecidableEq

/-- The empty database, as created by the schema migration. -/
def Store.empty : Store := ⟨[], [], [], []⟩

/-- The environment configuration consumed by the admission pipeline
(`config/env.ts`, objects `rateLimit`, `abuse`, `logging`, `apiKey`). -/
structure Config where
  defaultLimit : Nat
  defaultWindowSeconds : Nat
  useSlidingWindow : Bool
  burstThreshold : Nat
  burstWindowSeconds : Nat
  burstMultiplier : Nat
  defaultBanDurationSeconds : Nat
  geoBlockingEnabled : Bool
  blockedCountries : List String
  logAllRequests : Bool
  apiKeyDefaultRateLimit : Nat
deriving DecidableEq

/-- The defaults of `config/env.ts` when no environment variable is set. -/
def defaultConfig : Config where
  defaultLimit := 100
  defaultWindowSeconds := 60
  useSlidingWindow := true
  burstThreshold := 50
  burstWindowSeconds := 10
  burstMultiplier := 5
  defaultBanDurationSeconds := 3600
  geoBlockingEnabled := false
  blockedCountries := []
  logAllRequests := false
  apiKeyDefaultRateLimit := 1000

/-- The per-check rate-limit configuration (`RateLimitConfig` in
`types`). -/
structure RateLimitConfig where
  limit : Nat
  windowSeconds : Nat
  useSlidingWindow : Bool
deriving DecidableEq

/-- The value returned by the counter store (`RateLimitResult`).
`remaining` is an `Int` because the sliding-window source computes it as
`Math.max(0, Math.floor(...))` over floats. -/
structure RateLimitResult where
  allowed : Bool
  remaining : Int
  resetAt : Nat
  limit : Nat
  windowSeconds : Nat
deriving DecidableEq

/-- The request envelope metadata (`CheckRequest.metadata`). -/
structure CheckMetadata where
  country : Option String
  city : Option String
  userAgent : Option String
  path : Option String
  method : Option String
deriving DecidableEq

/-- The request envelope of `POST /v1/check` (`CheckRequest`). -/
structure CheckRequest where
  ip : Option String
  apiKey : Option String
  metadata : Option CheckMetadata
deriving DecidableEq

/-- The admission decision (`CheckResponse`). -/
structure CheckResponse where
  allowed : Bool
  reason : Reason
  remaining : Int
  resetAt : Nat
  limit : Option Nat
  retryAfter : Option Int
deriving DecidableEq

/-- `createResponse` of `rateLimiter.ts`: responses built outside the main
rate-limit path carry no `limit` field. -/
def createResponse (allowed : Bool) (reason : Reason) (remaining : Int) (resetAt : Nat)
    (retryAfter : Option Int) : CheckResponse :=
  ⟨allowed, reason, remaining, resetAt, none, retryAfter⟩

/-! ## Rate-limit repository (`repositories/rateLimits.ts`) -/

/-- `getWindowStart`: `floor(floor(Date.now()/1000) / windowSeconds) *
windowSeconds`, the fixed-window alignment. -/
def getWindowStart (nowMs W : Nat) : Nat := nowMs / 1000 / W * W

/-- The `SELECT * FROM rate_limits WHERE identifier = ? AND identifier_type
= ? AND window_start = ?` lookup. -/
def findBucket (rl : List RateLimitRow) (id : String) (ty : IdKind) (ws : Nat) :
    Option RateLimitRow :=
  rl.find? fun r => r.identifier = id ∧ r.identifierType = ty ∧ r.windowStart = ws

/-- The request count of the bucket at a window start, zero if the bucket
does not exist (the `?? 0` of the sliding-window source). -/
def bucketCount (rl : List RateLimitRow) (id : String) (ty : IdKind) (ws : Nat) : Nat :=
  ((findBucket rl id ty ws).map (·.requestCount)).getD 0

/-- `UPDATE rate_limits SET request_count = request_count + 1,
last_request_at = datetime('now') WHERE ...` on the bucket's key (see the
`UNIQUE` constraint note on `RateLimitRow`). -/
def incrementBucket (rl : List RateLimitRow) (id : String) (ty : IdKind) (ws nowS : Nat) :
    List RateLimitRow :=
  rl.map fun r =>
    if r.identifier = id ∧ r.identifierType = ty ∧ r.windowStart = ws then
      { r with requestCount := r.requestCount + 1, lastRequestAt := nowS }
    else r

/-- `checkFixedWindow`: load-or-create the bucket at the aligned window
start, allow iff its count is below the limit, increment only when
allowed.  `resetAt` in the source is
`floor((windowStartMs + windowSeconds*1000)/1000) = windowStart +
windowSeconds`. -/
def checkFixedWindow (cfg : RateLimitConfig) (nowMs : Nat) (id : String) (ty : IdKind)
    (st : Store) : RateLimitResult × Store :=
  let ws := getWindowStart nowMs cfg.windowSeconds
  let nowS := nowMs / 1000
  let inserted : List RateLimitRow :=
    match findBucket st.rateLimits id ty ws with
    | some _ => st.rateLimits
    | none => ⟨id, ty, ws, 0, nowS⟩ :: st.rateLimits
  let currentCount := bucketCount inserted id ty ws
  let allowed : Bool := currentCount < cfg.limit
  let remaining : Int := max 0 ((cfg.limit : Int) - currentCount - (if allowed then 1 else 0))
  let resetAt := ws + cfg.windowSeconds
  let final := if allowed then incrementBucket inserted id ty ws nowS else inserted
  (⟨allowed, remaining, resetAt, cfg.limit, cfg.windowSeconds⟩, { st with rateLimits := final })

/-- `checkSlidingWindow`: weighted count of the previous and current
aligned buckets.  `elapsedInCurrent` and `overlapRatio` are float
computations in the source, modelled exactly in `ℚ`.  The previous window
start `windowStart - windowSeconds` is negative only within the first
window after the 1970 epoch; the model truncates it at zero. -/
def checkSlidingWindow (cfg : RateLimitConfig) (nowMs : Nat) (id : String) (ty : IdKind)
    (st : Store) : RateLimitResult × Store :=
  let W := cfg.windowSeconds
  let windowMs := W * 1000
  let ws := getWindowStart nowMs W
  let prevWs := ws - W
  let currentRow := findBucket st.rateLimits id ty ws
  let currentCount := bucketCount st.rateLimits id ty ws
  let previousCount := bucketCount st.rateLimits id ty prevWs
  let elapsedInCurrent : ℚ := qSub (nowMs : ℚ) ((ws * 1000 : Nat) : ℚ)
  let overlapRatio : ℚ :=
    max 0 (qDiv (qSub ((windowMs : Nat) : ℚ) elapsedInCurrent) ((windowMs : Nat) : ℚ))
  let effectiveCount : ℚ := qAdd (qMul (previousCount : ℚ) overlapRatio) (currentCount : ℚ)
  let allowed : Bool := effectiveCount < (cfg.limit : ℚ)
  let remaining : Int :=
    max 0 ⌊qSub (qSub ((cfg.limit : ℚ)) effectiveCount) (if allowed then 1 else 0)⌋
  let resetAt := (nowMs + windowMs) / 1000
  let final :=
    if allowed then
      match currentRow with
      | some _ => incrementBucket st.rateLimits id ty ws (nowMs / 1000)
      | none => (⟨id, ty, ws, 1, nowMs / 1000⟩ : RateLimitRow) :: st.rateLimits
    else st.rateLimits
  (⟨allowed, remaining, resetAt, cfg.limit, W⟩, { st with rateLimits := final })

/-- `RateLimitRepository.check`: dispatch on the configured algorithm.  The
service always passes a complete `RateLimitConfig`, so the `Partial`
defaulting of the source is not reachable and not modelled. -/
def RateLimitRepository.check (cfg : RateLimitConfig) (nowMs : Nat) (id : String)
    (ty : IdKind) (st : Store) : RateLimitResult × Store :=
  if cfg.useSlidingWindow then checkSlidingWindow cfg nowMs id ty st
  else checkFixedWindow cfg nowMs id ty st

/-- `RateLimitRepository.cleanup`: `DELETE FROM rate_limits WHERE
window_start < datetime('now', '-2 hours')`. -/
def RateLimitRepository.cleanup (nowS : Nat) (rl : List RateLimitRow) : List RateLimitRow :=
  rl.filter fun r => ¬ r.windowStart + 7200 < nowS

/-! ## Ban repository (`repositories/bans.ts`) -/

/-- Whether a ban row matches `expires_at IS NULL OR expires_at >
datetime('now')`. -/
def banActive (nowS : Nat) (b : BanRow) : Bool :=
  match b.expiresAt with
  | none => true
  | some e => nowS < e

/-- The active ban rows for an identifier, newest first (the bans list is
kept newest-first, matching `ORDER BY banned_at DESC` for runs whose
operation times are nondecreasing). -/
def activeBansFor (bans : List BanRow) (id : String) (ty : IdKind) (nowS : Nat) :
    List BanRow :=
  bans.filter fun b => b.identifier = id ∧ b.identifierType = ty ∧ banActive nowS b

/-- `BanRepository.isCurrentlyBanned`: the newest active row, if any. -/
def isCurrentlyBanned (nowS : Nat) (id : String) (ty : IdKind) (bans : List BanRow) :
    Option BanRow :=
  (activeBansFor bans id ty nowS).head?

/-- `CreateBanRequest` of `types` (body of `POST /v1/bans`). -/
structure CreateBanRequest where
  identifier : String
  identifierType : IdKind
  reason : String
  durationSeconds : Option Nat
deriving DecidableEq

/-- The row built by `BanRepository.create`.  The source computes
`expiresAt = request.durationSeconds ? new Date(now + d*1000) : null`:
JavaScript truthiness makes a duration of `0` permanent. -/
def BanRepository.mkBan (nowS : Nat) (req : CreateBanRequest) (createdBy : String) : BanRow :=
  let expiresAt : Option Nat :=
    match req.durationSeconds with
    | none => none
    | some d => if d = 0 then none else some (nowS + d)
  ⟨req.identifier, req.identifierType, req.reason, nowS, expiresAt, createdBy⟩

/-- `BanRepository.create`: unconditionally insert a new ban row. -/
def BanRepository.create (nowS : Nat) (req : CreateBanRequest) (createdBy : String)
    (bans : List BanRow) : BanRow × List BanRow :=
  let b := BanRepository.mkBan nowS req createdBy
  (b, b :: bans)

/-- `BanRepository.createAutoBan`: `create` with the configured default
ban duration and `created_by = 'system'`. -/
def BanRepository.createAutoBan (cfg : Config) (nowS : Nat) (id : String) (ty : IdKind)
    (reason : String) (bans : List BanRow) : BanRow × List BanRow :=
  BanRepository.create nowS ⟨id, ty, reason, some cfg.defaultBanDurationSeconds⟩ "system" bans

/-- `BanRepository.cleanup`: `DELETE FROM bans WHERE expires_at IS NOT NULL
AND expires_at < datetime('now')`. -/
def BanRepository.cleanup (nowS : Nat) (bans : List BanRow) : List BanRow :=
  bans.filter fun b =>
    match b.expiresAt with
    | none => true
    | some e => ¬ e < nowS

/-- `BanRepository.unban`: `DELETE FROM bans WHERE identifier = ? AND
identifier_type = ?`. -/
def BanRepository.unban (id : String) (ty : IdKind) (bans : List BanRow) : List BanRow :=
  bans.filter fun b => ¬ (b.identifier = id ∧ b.identifierType = ty)

/-! ## Request-log repository (`repositories/requestLogs.ts`) -/

/-- `RequestLogRepository.log`: insert one row; `path` defaults to `/` and
`method` to `GET`. -/
def RequestLogRepository.log (nowS : Nat) (id : String) (ty : IdKind)
    (path method : Option String) (allowed : Bool) (reason : String)
    (country city userAgent : Option String) (logs : List LogRow) : List LogRow :=
  ⟨id, ty, path.getD "/", method.getD "GET", allowed, reason, country, city, userAgent, nowS⟩
    :: logs

/-- `RequestLogRepository.getCountInWindow`: rows of the identifier with
`timestamp > datetime('now', '-W seconds')`, i.e. `now < timestamp + W`. -/
def RequestLogRepository.getCountInWindow (nowS : Nat) (id : String) (ty : IdKind)
    (windowSeconds : Nat) (logs : List LogRow) : Nat :=
  (logs.filter fun l =>
    l.identifier = id ∧ l.identifierType = ty ∧ nowS < l.timestamp + windowSeconds).length

/-- `RequestLogRepository.getBaselineRate`: request count over the period
divided by the period in minutes (a float division, modelled in `ℚ`). -/
def RequestLogRepository.getBaselineRate (nowS : Nat) (id : String) (ty : IdKind)
    (periodMinutes : Nat) (logs : List LogRow) : ℚ :=
  qDiv ((logs.filter fun l =>
    l.identifier = id ∧ l.identifierType = ty ∧ nowS < l.timestamp + periodMinutes * 60).length
    : ℚ) (periodMinutes : ℚ)

/-- `RequestLogRepository.cleanup`: delete rows older than the retention. -/
def RequestLogRepository.cleanup (nowS retentionDays : Nat) (logs : List LogRow) :
    List LogRow :=
  logs.filter fun l => ¬ l.timestamp + retentionDays * 86400 < nowS

/-! ## Settings repository (`repositories/settings.ts`) -/

/-- JavaScript `String.prototype.toUpperCase` on the ASCII country codes
involved, character by character. -/
def jsToUpper (s : String) : String := String.mk (s.data.map Char.toUpper)

/-- `SettingsRepository.isCountryBlocked`: the admin settings registry
uppercases the queried code before comparing it with the stored (uppercase)
`blocked_countries` rows.  NOTE: the admission pipeline does not call this
function; it reads `config.abuse.blockedCountries` directly. -/
def SettingsRepository.isCountryBlocked (blockedCountryRows : List String)
    (countryCode : String) : Bool :=
  blockedCountryRows.contains (jsToUpper countryCode)

/-! ## API-key repository (`repositories/apiKeys.ts`) -/

/-- `generateApiKey`: a literal `rl_` marker followed by a random URL-safe
token (`nanoid`); the token is passed in by the caller of the model. -/
def generateApiKey (tok : String) : String := "rl_" ++ tok

/-- Parameters of `ApiKeyRepository.create` (`CreateApiKeyRequest`). -/
structure CreateApiKeyParams where
  name : String
  rateLimit : Option Nat
  windowSeconds : Option Nat
  expiresAt : Option Nat
deriving DecidableEq

/-- `ApiKeyRepository.create`: insert a row holding only the digest of the
generated plaintext and return the plaintext once.  `id` and `tok` stand
for the two freshly generated `nanoid` values. -/
def ApiKeyRepository.create (hash : String → String) (cfg : Config) (nowS : Nat)
    (id tok : String) (p : CreateApiKeyParams) (keys : List ApiKeyRow) :
    (ApiKeyRow × String) × List ApiKeyRow :=
  let plainTextKey := generateApiKey tok
  let keyHash := hash plainTextKey
  let row : ApiKeyRow :=
    ⟨id, keyHash, p.name, p.rateLimit.getD cfg.apiKeyDefaultRateLimit,
      p.windowSeconds.getD cfg.defaultWindowSeconds, true, nowS, p.expiresAt, none⟩
  ((row, plainTextKey), row :: keys)

/-- `ApiKeyRepository.lookupByKey`: hash the incoming plaintext, find the
active row with that digest, touch `last_used_at`, and return the row read
before the touch. -/
def ApiKeyRepository.lookupByKey (hash : String → String) (nowS : Nat) (plainTextKey : String)
    (keys : List ApiKeyRow) : Option ApiKeyRow × List ApiKeyRow :=
  let keyHash := hash plainTextKey
  match keys.find? (fun k => k.keyHash = keyHash ∧ k.isActive) with
  | none => (none, keys)
  | some row =>
    (some row,
      keys.map fun k => if k.id = row.id then { k with lastUsedAt := some nowS } else k)

/-- `ApiKeyRepository.isExpired`: an unset expiry never expires; otherwise
`expiresAt < new Date()`. -/
def ApiKeyRepository.isExpired (nowS : Nat) (k : ApiKeyRow) : Bool :=
  match k.expiresAt with
  | none => false
  | some e => e < nowS

/-! ## Rate limiter service (`services/rateLimiter.ts`) -/

/-- JavaScript `Number.prototype.toFixed(2)` for the nonnegative rates
appearing in the baseline-spike ban reason: round to the nearest hundredth
and print with two decimals. -/
def toFixed2 (q : ℚ) : String :=
  let n : Int := ⌊qAdd (qMul q (100 : ℚ)) (mkRat 1 2)⌋
  let frac := (n % 100).toNat
  toString (n / 100) ++ "." ++ (if frac < 10 then "0" else "") ++ toString frac

/-- `RateLimiterService.logRequest`: write a request-log row only when the
decision was a denial or `LOG_ALL_REQUESTS` is enabled.  The stored
identifier is whatever identifier the pipeline derived. -/
def RateLimiterService.logRequest (cfg : Config) (nowS : Nat) (request : CheckRequest)
    (identifier : String) (ty : IdKind) (allowed : Bool) (reason : Reason)
    (st : Store) : Store :=
  let newLogs :=
    RequestLogRepository.log nowS identifier ty
      (request.metadata.bind (·.path)) (request.metadata.bind (·.method))
      allowed reason.toCode
      (request.metadata.bind (·.country)) (request.metadata.bind (·.city))
      (request.metadata.bind (·.userAgent)) st.requestLogs
  if cfg.logAllRequests || !allowed then { st with requestLogs := newLogs }
  else st

/-- `RateLimiterService.detectAbuse`: absolute burst rule over the request
log, then the baseline-rate rule; on either, create a system auto-ban and
report *fire*. -/
def RateLimiterService.detectAbuse (cfg : Config) (nowS : Nat) (identifier : String)
    (ty : IdKind) (st : Store) : Bool × Store :=
  let currentBurstCount :=
    RequestLogRepository.getCountInWindow nowS identifier ty cfg.burstWindowSeconds
      st.requestLogs
  if cfg.burstThreshold ≤ currentBurstCount then
    let reason := "Burst detection: " ++ toString currentBurstCount ++ " requests in "
      ++ toString cfg.burstWindowSeconds ++ "s"
    let (_, bans) := BanRepository.createAutoBan cfg nowS identifier ty reason st.bans
    (true, { st with bans := bans })
  else
    let baselineRate := RequestLogRepository.getBaselineRate nowS identifier ty 60 st.requestLogs
    let currentRate : ℚ :=
      qDiv (currentBurstCount : ℚ) (qDiv (cfg.burstWindowSeconds : ℚ) (60 : ℚ))
    if 0 < baselineRate ∧ qMul baselineRate (cfg.burstMultiplier : ℚ) < currentRate then
      let reason := "Baseline spike: " ++ toFixed2 currentRate ++ " req/min vs baseline "
        ++ toFixed2 baselineRate ++ " req/min"
      let (_, bans) := BanRepository.createAutoBan cfg nowS identifier ty reason st.bans
      (true, { st with bans := bans })
    else (false, st)

/-- The tail of `RateLimiterService.check` shared by the allowed and the
rate-limited outcome: log per the write policy and build the response,
with `retryAfter = resetAt - floor(now/1000)` on a denial. -/
def RateLimiterService.finishRate (cfg : Config) (nowMs : Nat) (request : CheckRequest)
    (identifier : String) (ty : IdKind) (r : RateLimitResult) (st : Store) :
    CheckResponse × Store :=
  let nowS := nowMs / 1000
  let reason := if r.allowed then Reason.ok else Reason.rateLimited
  let st := RateLimiterService.logRequest cfg nowS request identifier ty r.allowed reason st
  let retryAfter : Option Int :=
    if r.allowed then none else some ((r.resetAt : Int) - (nowS : Int))
  (⟨r.allowed, reason, r.remaining, r.resetAt, some r.limit, retryAfter⟩, st)

/-- Steps 4–6 of `RateLimiterService.check`: the counter-store check, then
the abuse detector only when the counter admitted the request. -/
def RateLimiterService.rateStage (cfg : Config) (nowMs : Nat) (request : CheckRequest)
    (identifier : String) (ty : IdKind) (rlcfg : RateLimitConfig) (st : Store) :
    CheckResponse × Store :=
  let nowS := nowMs / 1000
  let (r, st) := RateLimitRepository.check rlcfg nowMs identifier ty st
  if r.allowed then
    let (abuseDetected, st) := RateLimiterService.detectAbuse cfg nowS identifier ty st
    if abuseDetected then
      let st := RateLimiterService.logRequest cfg nowS request identifier ty false .banned st
      (createResponse false .banned 0 r.resetAt none, st)
    else RateLimiterService.finishRate cfg nowMs request identifier ty r st
  else RateLimiterService.finishRate cfg nowMs request identifier ty r st

/-- `RateLimiterService.check`, the admission pipeline.  The identifier is
`request.apiKey || request.ip` — the raw bearer token itself when one is
supplied — and is the value used for the ban lookup, the counter-store
key, and the request-log rows.  The geo step compares the raw country hint
against `config.abuse.blockedCountries` by exact membership. -/
def RateLimiterService.check (hash : String → String) (cfg : Config) (nowMs : Nat)
    (request : CheckRequest) (st : Store) : CheckResponse × Store :=
  let nowS := nowMs / 1000
  let identifierOpt := (truthy request.apiKey).orElse fun _ => truthy request.ip
  let identifierType : IdKind := if (truthy request.apiKey).isSome then .apiKey else .ip
  match identifierOpt with
  | none => (createResponse false .invalidKey 0 0 none, st)
  | some identifier =>
    match isCurrentlyBanned nowS identifier identifierType st.bans with
    | some ban =>
      let retryAfter : Option Int := ban.expiresAt.map fun e =>
        (((e * 1000 - nowMs + 999) / 1000 : Nat) : Int)
      let st := RateLimiterService.logRequest cfg nowS request identifier identifierType
        false .banned st
      (createResponse false .banned 0 0 retryAfter, st)
    | none =>
      let countryOpt := truthy (request.metadata.bind (·.country))
      let geoBlockedNow : Bool :=
        cfg.geoBlockingEnabled &&
          (match countryOpt with
            | some c => cfg.blockedCountries.contains c
            | none => false)
      if geoBlockedNow then
        let st := RateLimiterService.logRequest cfg nowS request identifier identifierType
          false .geoBlocked st
        (createResponse false .geoBlocked 0 0 none, st)
      else
        match truthy request.apiKey with
        | some tokenValue =>
          let (found, keys) := ApiKeyRepository.lookupByKey hash nowS tokenValue st.apiKeys
          let st := { st with apiKeys := keys }
          match found with
          | none =>
            let st := RateLimiterService.logRequest cfg nowS request identifier identifierType
              false .invalidKey st
            (createResponse false .invalidKey 0 0 none, st)
          | some apiKey =>
            if ApiKeyRepository.isExpired nowS apiKey then
              let st := RateLimiterService.logRequest cfg nowS request identifier identifierType
                false .expiredKey st
              (createResponse false .expiredKey 0 0 none, st)
            else
              RateLimiterService.rateStage cfg nowMs request identifier identifierType
                ⟨apiKey.rateLimit, apiKey.windowSeconds, cfg.useSlidingWindow⟩ st
        | none =>
          RateLimiterService.rateStage cfg nowMs request identifier identifierType
            ⟨cfg.defaultLimit, cfg.defaultWindowSeconds, cfg.useSlidingWindow⟩ st

/-! ## IP intelligence (`ip-intel/repository.ts`, `ip-intel/engine.ts`) -/

namespace Intel

/-- The classification categories (`IPType`). -/
inductive IPType
  | residential
  | proxy
  | vpn
  | tor
  | hosting
  | unknown
deriving DecidableEq

/-- The classification sources (`ClassificationSource`). -/
inductive Source
  | cache
  | heuristic
  | provider
  | manual
  | torList
deriving DecidableEq

/-- The `'ip' | 'asn' | 'range'` discriminator of `ip_intel_blocks`. -/
inductive BlockKind
  | ip
  | asn
  | range
deriving DecidableEq

/-- A detection-layer result (`DetectionResult`); the optional fields model
its `metadata`. -/
structure DetectionResult where
  type : IPType
  confidence : Nat
  reason : String
  source : Source
  asn : Option Nat
  asnOrg : Option String
  countryCode : Option String
deriving DecidableEq

/-- A normalized provider response (`ProviderResult`); the source caches it
as a JSON string, modelled as the value itself. -/
structure ProviderResult where
  isProxy : Bool
  isVPN : Bool
  isTor : Bool
  isHosting : Bool
  confidence : Nat
  asn : Option Nat
  asnOrg : Option String
  countryCode : Option String
deriving DecidableEq

/-- A provider adapter as seen by `queryProviders`: a name and an external
`check` call, modelled as an oracle function (errors and timeouts appear as
`none`). -/
structure Provider where
  name : String
  check : String → Option ProviderResult

/-- A row of `asn_cache`. -/
structure ASNCacheRecord where
  asn : Nat
  orgName : String
  isHosting : Bool
  isVpn : Bool
  countryCode : Option String
  expiresAt : Nat
deriving DecidableEq

/-- A row of `tor_nodes`.  The schema has no expiry column. -/
structure TorNodeRow where
  ip : String
  firstSeenAt : Nat
  lastSeenAt : Nat
  isExit : Bool
deriving DecidableEq

/-- A row of `ip_intel_blocks`. -/
structure ManualBlockRecord where
  identifier : String
  identifierType : BlockKind
  reason : String
  blockedBy : String
  blockedAt : Nat
  expiresAt : Option Nat
deriving DecidableEq

/-- A row of `ip_reputation` / the `IPClassification` value. -/
structure IPClassification where
  ip : String
  isProxy : Bool
  isVPN : Bool
  isTor : Bool
  isHosting : Bool
  isResidential : Bool
  confidence : Nat
  reason : String
  source : Source
  asn : Option Nat
  asnOrg : Option String
  countryCode : Option String
  checkedAt : Nat
  expiresAt : Nat
deriving DecidableEq

/-- A row of `provider_cache`. -/
structure ProviderCacheRow where
  ip : String
  provider : String
  response : ProviderResult
  expiresAt : Nat
deriving DecidableEq

/-- A row of `ip_intel_stats`; `date` is the epoch day of the daily
bucket. -/
structure StatRow where
  date : Nat
  statType : String
  count : Nat
deriving DecidableEq

/-- The ip-intel tables of the store. -/
structure IntelStore where
  ipReputation : List IPClassification
  asnCache : List ASNCacheRecord
  torNodes : List TorNodeRow
  blocks : List ManualBlockRecord
  providerCache : List ProviderCacheRow
  stats : List StatRow
deriving DecidableEq

/-- The empty ip-intel database. -/
def IntelStore.empty : IntelStore := ⟨[], [], [], [], [], []⟩

/-- `ipIntelConfig.detection` and `.cache` (`ip-intel/config.ts`). -/
structure IntelConfig where
  confidenceThreshold : Nat
  torDetectionEnabled : Bool
  asnHeuristicsEnabled : Bool
  ipTTLSeconds : Nat
  asnTTLSeconds : Nat
  providerTTLSeconds : Nat
deriving DecidableEq

/-- The defaults of `ip-intel/config.ts`: threshold 70, Tor and ASN layers
enabled, TTLs of 1 h / 24 h / 6 h. -/
def defaultIntelConfig : IntelConfig := ⟨70, true, true, 3600, 86400, 21600⟩

/-- `getIPReputation`: the cached row for an address with
`expires_at > datetime('now')`. -/
def getIPReputation (nowS : Nat) (st : IntelStore) (ip : String) : Option IPClassification :=
  st.ipReputation.find? fun r => r.ip = ip ∧ nowS < r.expiresAt

/-- `upsertIPReputation`: insert-or-replace on the address primary key,
stamping `expires_at = now + ttl`. -/
def upsertIPReputation (cfg : IntelConfig) (nowS : Nat) (st : IntelStore)
    (c : IPClassification) : IntelStore :=
  let c := { c with expiresAt := nowS + cfg.ipTTLSeconds }
  if st.ipReputation.any (fun r => r.ip = c.ip) then
    { st with ipReputation := st.ipReputation.map fun r => if r.ip = c.ip then c else r }
  else
    { st with ipReputation := c :: st.ipReputation }

/-- `getASNCache`: the non-expired row for an ASN. -/
def getASNCache (nowS : Nat) (st : IntelStore) (asn : Nat) : Option ASNCacheRecord :=
  st.asnCache.find? fun r => r.asn = asn ∧ nowS < r.expiresAt

/-- `upsertASNCache`: insert-or-replace on the ASN primary key. -/
def upsertASNCache (cfg : IntelConfig) (nowS : Nat) (st : IntelStore) (asn : Nat)
    (orgName : String) (isHosting isVpn : Bool) (countryCode : Option String) : IntelStore :=
  let row : ASNCacheRecord := ⟨asn, orgName, isHosting, isVpn, countryCode,
    nowS + cfg.asnTTLSeconds⟩
  if st.asnCache.any (fun r => r.asn = asn) then
    { st with asnCache := st.asnCache.map fun r => if r.asn = asn then row else r }
  else
    { st with asnCache := row :: st.asnCache }

/-- `isTorExitNode` (`ip-intel/repository.ts`): `SELECT 1 FROM tor_nodes
WHERE ip = ? AND is_exit = 1`.  No expiry is consulted: the table has
none. -/
def isTorExitNode (st : IntelStore) (ip : String) : Bool :=
  (st.torNodes.find? fun t => t.ip = ip ∧ t.isExit).isSome

/-- One upsert of `syncTorNodes`: `INSERT ... ON CONFLICT(ip) DO UPDATE SET
last_seen_at = datetime('now'), is_exit = 1`. -/
def upsertTorNode (nowS : Nat) (rows : List TorNodeRow) (ip : String) : List TorNodeRow :=
  if rows.any (fun t => t.ip = ip) then
    rows.map fun t => if t.ip = ip then { t with lastSeenAt := nowS, isExit := true } else t
  else
    (⟨ip, nowS, nowS, true⟩ : TorNodeRow) :: rows

/-- `syncTorNodes`: bulk upsert of a fetched address list in one
transaction.  Rows absent from the list are left untouched; nothing is ever
deleted. -/
def syncTorNodes (nowS : Nat) (st : IntelStore) (ips : List String) : IntelStore :=
  { st with torNodes := ips.foldl (upsertTorNode nowS) st.torNodes }

/-- Whether a manual-block row is active (`expires_at IS NULL OR expires_at
> datetime('now')`). -/
def blockActive (nowS : Nat) (b : ManualBlockRecord) : Bool :=
  match b.expiresAt with
  | none => true
  | some e => nowS < e

/-- `getManualBlock`: the active row for `(identifier, identifier_type)`. -/
def getManualBlock (nowS : Nat) (st : IntelStore) (identifier : String) (k : BlockKind) :
    Option ManualBlockRecord :=
  st.blocks.find? fun b => b.identifier = identifier ∧ b.identifierType = k ∧ blockActive nowS b

/-- `addManualBlock`: upsert on `(identifier, identifier_type)`;
a duration of `none` makes the block permanent. -/
def addManualBlock (nowS : Nat) (st : IntelStore) (identifier : String) (k : BlockKind)
    (reason blockedBy : String) (durationSeconds : Option Nat) : IntelStore :=
  let expiresAt := durationSeconds.map (nowS + ·)
  let row : ManualBlockRecord := ⟨identifier, k, reason, blockedBy, nowS, expiresAt⟩
  if st.blocks.any (fun b => b.identifier = identifier ∧ b.identifierType = k) then
    { st with blocks := st.blocks.map fun b =>
        if b.identifier = identifier ∧ b.identifierType = k then row else b }
  else
    { st with blocks := row :: st.blocks }

/-- `removeManualBlock`: delete by `(identifier, identifier_type)`. -/
def removeManualBlock (st : IntelStore) (identifier : String) (k : BlockKind) : IntelStore :=
  { st with blocks := st.blocks.filter fun b =>
      ¬ (b.identifier = identifier ∧ b.identifierType = k) }

/-- `getActiveRangeBlocks`: all active rows with `identifier_type =
'range'`. -/
def getActiveRangeBlocks (nowS : Nat) (st : IntelStore) : List ManualBlockRecord :=
  st.blocks.filter fun b => b.identifierType = BlockKind.range ∧ blockActive nowS b

/-- `getProviderCache`: the non-expired cached response for
`(ip, provider)`. -/
def getProviderCache (nowS : Nat) (st : IntelStore) (ip provider : String) :
    Option ProviderResult :=
  (st.providerCache.find? fun r => r.ip = ip ∧ r.provider = provider ∧ nowS < r.expiresAt).map
    (·.response)

/-- `setProviderCache`: upsert on `(ip, provider)`. -/
def setProviderCache (cfg : IntelConfig) (nowS : Nat) (st : IntelStore) (ip provider : String)
    (response : ProviderResult) : IntelStore :=
  let row : ProviderCacheRow := ⟨ip, provider, response, nowS + cfg.providerTTLSeconds⟩
  if st.providerCache.any (fun r => r.ip = ip ∧ r.provider = provider) then
    { st with providerCache := st.providerCache.map fun r =>
        if r.ip = ip ∧ r.provider = provider then row else r }
  else
    { st with providerCache := row :: st.providerCache }

/-- `incrementStat`: upsert on `(date('now'), stat_type)`, adding to the
daily counter. -/
def incrementStat (nowS : Nat) (st : IntelStore) (statType : String) (n : Nat) : IntelStore :=
  let day := nowS / 86400
  if st.stats.any (fun s => s.date = day ∧ s.statType = statType) then
    { st with stats := st.stats.map fun s =>
        if s.date = day ∧ s.statType = statType then { s with count := s.count + n } else s }
  else
    { st with stats := (⟨day, statType, n⟩ : StatRow) :: st.stats }

/-- `runCleanup`: delete expired rows of `ip_reputation`, `asn_cache`,
`provider_cache` and `ip_intel_blocks`, and stats older than 90 days.  The
`tor_nodes` table is not among the cleanup targets. -/
def runCleanup (nowS : Nat) (st : IntelStore) : IntelStore :=
  { st with
    ipReputation := st.ipReputation.filter fun r => ¬ r.expiresAt < nowS
    asnCache := st.asnCache.filter fun r => ¬ r.expiresAt < nowS
    providerCache := st.providerCache.filter fun r => ¬ r.expiresAt < nowS
    blocks := st.blocks.filter fun b =>
      match b.expiresAt with
      | none => true
      | some e => ¬ e < nowS
    stats := st.stats.filter fun s => ¬ s.date + 90 < nowS / 86400 }

/-! ### Detection engine (`ip-intel/engine.ts`) -/

/-- JavaScript `parseInt(s, 10)` on a nonnegative literal: parse the
longest leading run of decimal digits, `none` when there is none
(`NaN`). -/
def jsParseInt (s : String) : Option Nat :=
  let digits := s.takeWhile Char.isDigit
  if digits = "" then none else some digits.toNat!

/-- `ipToLong`: IPv4 dotted quad to an unsigned 32-bit integer, `none`
where the source throws. -/
def ipToLong (ip : String) : Option Nat :=
  match (ip.splitOn ".").map jsParseInt with
  | [some a, some b, some c, some d] =>
    if a ≤ 255 ∧ b ≤ 255 ∧ c ≤ 255 ∧ d ≤ 255 then
      some (a * 16777216 + b * 65536 + c * 256 + d)
    else none
  | _ => none

/-- `isIpInCidr`: membership of an address in `a.b.c.d/N` via the unsigned
32-bit mask `(N == 0) ? 0 : (0xFFFFFFFF << (32-N)) >>> 0`; any invalid
input yields `false`. -/
def isIpInCidr (ip cidr : String) : Bool :=
  match cidr.splitOn "/" with
  | [range] => ip = range
  | range :: bitsStr :: _ =>
    match jsParseInt bitsStr with
    | none => false
    | some bits =>
      if bits ≤ 32 then
        match ipToLong ip, ipToLong range with
        | some ipLong, some rangeLong =>
          let mask : Nat := if bits = 0 then 0 else 4294967295 * 2 ^ (32 - bits) % 4294967296
          ipLong &&& mask = rangeLong &&& mask
        | _, _ => false
      else false
  | [] => false

/-- Layer 2, `checkManualBlocks`: a direct address block, else the first
active range block containing the address. -/
def checkManualBlocks (nowS : Nat) (st : IntelStore) (ip : String) : Option DetectionResult :=
  match getManualBlock nowS st ip .ip with
  | some ipBlock =>
    some ⟨.proxy, 100, "Manually blocked: " ++ ipBlock.reason, .manual, none, none, none⟩
  | none =>
    match (getActiveRangeBlocks nowS st).find? (fun b => isIpInCidr ip b.identifier) with
    | some block =>
      some ⟨.proxy, 100,
        "IP matches blocked range " ++ block.identifier ++ ": " ++ block.reason,
        .manual, none, none, none⟩
    | none => none

/-- Layer 3, `checkTorExitNode`. -/
def checkTorExitNode (st : IntelStore) (ip : String) : Option DetectionResult :=
  if isTorExitNode st ip then
    some ⟨.tor, 100, "IP is a known Tor exit node", .torList, none, none, none⟩
  else none

/-- A successful response of the free ASN lookup endpoint after the
source's `AS<digits>` parsing: the ASN number, the organisation name
(`org ?? isp ?? 'Unknown'`), and an optional country code. -/
structure FetchedAsn where
  asn : Nat
  orgName : String
  countryCode : Option String
deriving DecidableEq

/-- `lookupASN`: consult the external ASN endpoint (the `fetchAsn` oracle;
network failure and unparsable responses are `none`), then prefer the
cached ASN record for its hosting/VPN flags, else return basic info with
both flags unset and a 24 h expiry. -/
def lookupASN (fetchAsn : String → Option FetchedAsn) (nowS : Nat) (st : IntelStore)
    (ip : String) : Option ASNCacheRecord :=
  match fetchAsn ip with
  | none => none
  | some f =>
    match getASNCache nowS st f.asn with
    | some cached => some cached
    | none => some ⟨f.asn, f.orgName, false, false, f.countryCode, nowS + 86400⟩

/-- Layer 4, `checkASNHeuristics`: manual ASN block at confidence 100,
known hosting/VPN ASN at 85, otherwise a tentative residential result at
60. -/
def checkASNHeuristics (fetchAsn : String → Option FetchedAsn) (nowS : Nat) (st : IntelStore)
    (ip : String) : Option DetectionResult :=
  match lookupASN fetchAsn nowS st ip with
  | none => none
  | some asnInfo =>
    match getManualBlock nowS st (toString asnInfo.asn) .asn with
    | some asnBlock =>
      some ⟨.hosting, 100,
        "ASN " ++ toString asnInfo.asn ++ " manually blocked: " ++ asnBlock.reason,
        .manual, some asnInfo.asn, some asnInfo.orgName, none⟩
    | none =>
      if asnInfo.isHosting then
        let type := if asnInfo.isVpn then IPType.vpn else IPType.hosting
        let typeName := if asnInfo.isVpn then "vpn" else "hosting"
        some ⟨type, 85,
          "ASN " ++ toString asnInfo.asn ++ " (" ++ asnInfo.orgName ++ ") is a known "
            ++ typeName ++ " provider",
          .heuristic, some asnInfo.asn, some asnInfo.orgName, none⟩
      else if asnInfo.isVpn then
        some ⟨.vpn, 85,
          "ASN " ++ toString asnInfo.asn ++ " (" ++ asnInfo.orgName
            ++ ") is a known VPN provider",
          .heuristic, some asnInfo.asn, some asnInfo.orgName, none⟩
      else
        some ⟨.residential, 60,
          "ASN " ++ toString asnInfo.asn ++ " (" ++ asnInfo.orgName
            ++ ") appears residential",
          .heuristic, some asnInfo.asn, some asnInfo.orgName, none⟩

/-- `hasPositiveIndicators`. -/
def hasPositiveIndicators (r : ProviderResult) : Bool :=
  r.isProxy || r.isVPN || r.isTor || r.isHosting

/-- `providerResultToDetection`: Tor wins over VPN over proxy over
hosting. -/
def providerResultToDetection (r : ProviderResult) : DetectionResult :=
  if r.isTor then
    ⟨.tor, r.confidence, "Provider detected Tor exit node", .provider,
      r.asn, r.asnOrg, r.countryCode⟩
  else if r.isVPN then
    ⟨.vpn, r.confidence, "Provider detected VPN", .provider, r.asn, r.asnOrg, r.countryCode⟩
  else if r.isProxy then
    ⟨.proxy, r.confidence, "Provider detected proxy", .provider,
      r.asn, r.asnOrg, r.countryCode⟩
  else if r.isHosting then
    ⟨.hosting, r.confidence, "Provider detected hosting/datacenter IP", .provider,
      r.asn, r.asnOrg, r.countryCode⟩
  else
    ⟨.residential, r.confidence, "Provider detected residential IP", .provider,
      r.asn, r.asnOrg, r.countryCode⟩

/-- The loop of layer 5, `queryProviders`: per provider, prefer the cached
response, else call and cache; return the first result with a positive
indicator. -/
def queryProvidersGo (cfg : IntelConfig) (nowS : Nat) (ip : String) :
    List Provider → IntelStore → Option DetectionResult × IntelStore
  | [], st => (none, st)
  | p :: ps, st =>
    match getProviderCache nowS st ip p.name with
    | some cached =>
      if hasPositiveIndicators cached then (some (providerResultToDetection cached), st)
      else queryProvidersGo cfg nowS ip ps st
    | none =>
      match p.check ip with
      | some result =>
        let st := setProviderCache cfg nowS st ip p.name result
        if hasPositiveIndicators result then (some (providerResultToDetection result), st)
        else queryProvidersGo cfg nowS ip ps st
      | none => queryProvidersGo cfg nowS ip ps st

/-- Layer 5 (`queryProviders`) followed by the layer-6 fallback of
`runDetectionPipeline`: an unknown classification at confidence 30. -/
def providersAndFallback (cfg : IntelConfig) (providers : List Provider) (nowS : Nat)
    (st : IntelStore) (ip : String) : DetectionResult × IntelStore :=
  match queryProvidersGo cfg nowS ip providers st with
  | (some r, st) => (r, st)
  | (none, st) =>
    (⟨.unknown, 30, "No classification data available", .heuristic, none, none, none⟩, st)

/-- `runDetectionPipeline`: manual blocks, Tor, ASN heuristics (kept only
when its confidence reaches `confidenceThreshold`), providers, fallback. -/
def runDetectionPipeline (cfg : IntelConfig) (fetchAsn : String → Option FetchedAsn)
    (providers : List Provider) (nowS : Nat) (st : IntelStore) (ip : String) :
    DetectionResult × IntelStore :=
  match checkManualBlocks nowS st ip with
  | some r => (r, st)
  | none =>
    match (if cfg.torDetectionEnabled then checkTorExitNode st ip else none) with
    | some r => (r, st)
    | none =>
      match (if cfg.asnHeuristicsEnabled then checkASNHeuristics fetchAsn nowS st ip
          else none) with
      | some asnResult =>
        if cfg.confidenceThreshold ≤ asnResult.confidence then (asnResult, st)
        else providersAndFallback cfg providers nowS st ip
      | none => providersAndFallback cfg providers nowS st ip

/-- `buildClassification`: collapse the detection type to the boolean
flags.  The `expiresAt` field is a placeholder overwritten by
`upsertIPReputation` (the source value has no expiry; the row gains one on
the cache write). -/
def buildClassification (ip : String) (nowS : Nat) (d : DetectionResult) : IPClassification :=
  ⟨ip, d.type = IPType.proxy, d.type = IPType.vpn, d.type = IPType.tor,
    d.type = IPType.hosting, d.type = IPType.residential,
    d.confidence, d.reason, d.source, d.asn, d.asnOrg, d.countryCode, nowS, 0⟩

/-- `trackClassificationType`: bump the daily counter of the first set
flag. -/
def trackClassificationType (nowS : Nat) (st : IntelStore) (c : IPClassification) :
    IntelStore :=
  if c.isTor then incrementStat nowS st "tor" 1
  else if c.isVPN then incrementStat nowS st "vpn" 1
  else if c.isProxy then incrementStat nowS st "proxy" 1
  else if c.isHosting then incrementStat nowS st "hosting" 1
  else if c.isResidential then incrementStat nowS st "residential" 1
  else incrementStat nowS st "unknown" 1

/-- `classifyIP`: stats, cache layer, detection pipeline, write-through
cache, per-type stats. -/
def classifyIP (cfg : IntelConfig) (fetchAsn : String → Option FetchedAsn)
    (providers : List Provider) (nowS : Nat) (st : IntelStore) (ip : String)
    (bypassCache : Bool) : IPClassification × IntelStore :=
  let st := incrementStat nowS st "check" 1
  match (if bypassCache then none else getIPReputation nowS st ip) with
  | some cached =>
    let st := incrementStat nowS st "cache_hit" 1
    ({ cached with source := .cache }, st)
  | none =>
    let (detection, st2) := runDetectionPipeline cfg fetchAsn providers nowS st ip
    let classification := buildClassification ip nowS detection
    let st3 := upsertIPReputation cfg nowS st2 classification
    let st4 := trackClassificationType nowS st3 classification
    ({ classification with expiresAt := nowS + cfg.ipTTLSeconds }, st4)

end Intel

/-! ## Exception semantics of the admission pipeline

`RateLimiterService.check` wraps steps 1–6 in a `try`: any store operation
that throws after the identifier has been derived is caught at the top of
`check`, which then fails open.  To state that, the pipeline body is
transcribed once more over a record of store operations that may fail
(`Except`), mirroring the `try` block; `RateLimiterService.checkWithOps`
is the whole of `check` including the surrounding catch. -/

/-- The store operations invoked inside the `try` block of `check`, each of
which may throw.  The operations close over the current time and store. -/
structure PipelineOps where
  banLookup : String → IdKind → Except String (Option BanRow)
  keyLookup : String → Except String (Option ApiKeyRow)
  rlCheck : RateLimitConfig → String → IdKind → Except String RateLimitResult
  countInWindow : String → IdKind → Nat → Except String Nat
  baselineRate : String → IdKind → Nat → Except String ℚ
  autoBan : String → IdKind → String → Except String Unit
  writeLog : String → IdKind → Bool → Reason → Except String Unit

/-- `logRequest` over fallible operations. -/
def RateLimiterService.logRequestOps (cfg : Config) (ops : PipelineOps) (identifier : String)
    (ty : IdKind) (allowed : Bool) (reason : Reason) : Except String Unit :=
  if cfg.logAllRequests || !allowed then ops.writeLog identifier ty allowed reason
  else pure ()

/-- `detectAbuse` over fallible operations. -/
def RateLimiterService.detectAbuseOps (cfg : Config) (ops : PipelineOps)
    (identifier : String) (ty : IdKind) : Except String Bool := do
  let currentBurstCount ← ops.countInWindow identifier ty cfg.burstWindowSeconds
  if cfg.burstThreshold ≤ currentBurstCount then
    ops.autoBan identifier ty ("Burst detection: " ++ toString currentBurstCount
      ++ " requests in " ++ toString cfg.burstWindowSeconds ++ "s")
    pure true
  else do
    let baselineRate ← ops.baselineRate identifier ty 60
    let currentRate : ℚ :=
      qDiv (currentBurstCount : ℚ) (qDiv (cfg.burstWindowSeconds : ℚ) (60 : ℚ))
    if 0 < baselineRate ∧ qMul baselineRate (cfg.burstMultiplier : ℚ) < currentRate then do
      ops.autoBan identifier ty ("Baseline spike: " ++ toFixed2 currentRate
        ++ " req/min vs baseline " ++ toFixed2 baselineRate ++ " req/min")
      pure true
    else pure false

/-- The body of the `try` block of `check` (steps 1–6 and the final log),
over fallible operations. -/
def RateLimiterService.checkTry (cfg : Config) (ops : PipelineOps) (nowMs : Nat)
    (request : CheckRequest) (identifier : String) (identifierType : IdKind) :
    Except String CheckResponse := do
  let nowS := nowMs / 1000
  match ← ops.banLookup identifier identifierType with
  | some ban =>
    let retryAfter : Option Int := ban.expiresAt.map fun e =>
      (((e * 1000 - nowMs + 999) / 1000 : Nat) : Int)
    RateLimiterService.logRequestOps cfg ops identifier identifierType false .banned
    pure (createResponse false .banned 0 0 retryAfter)
  | none =>
    let countryOpt := truthy (request.metadata.bind (·.country))
    let geoBlockedNow : Bool :=
      cfg.geoBlockingEnabled &&
        (match countryOpt with
          | some c => cfg.blockedCountries.contains c
          | none => false)
    if geoBlockedNow then do
      RateLimiterService.logRequestOps cfg ops identifier identifierType false .geoBlocked
      pure (createResponse false .geoBlocked 0 0 none)
    else do
      let rlcfg : RateLimitConfig ←
        match truthy request.apiKey with
        | some tokenValue => do
          match ← ops.keyLookup tokenValue with
          | none => do
            RateLimiterService.logRequestOps cfg ops identifier identifierType false .invalidKey
            return createResponse false .invalidKey 0 0 none
          | some apiKey =>
            if ApiKeyRepository.isExpired nowS apiKey then do
              RateLimiterService.logRequestOps cfg ops identifier identifierType false
                .expiredKey
              return createResponse false .expiredKey 0 0 none
            else
              pure ⟨apiKey.rateLimit, apiKey.windowSeconds, cfg.useSlidingWindow⟩
        | none =>
          pure ⟨cfg.defaultLimit, cfg.defaultWindowSeconds, cfg.useSlidingWindow⟩
      let r ← ops.rlCheck rlcfg identifier identifierType
      if r.allowed then do
        let abuseDetected ← RateLimiterService.detectAbuseOps cfg ops identifier identifierType
        if abuseDetected then do
          RateLimiterService.logRequestOps cfg ops identifier identifierType false .banned
          pure (createResponse false .banned 0 r.resetAt none)
        else do
          RateLimiterService.logRequestOps cfg ops identifier identifierType true .ok
          pure ⟨true, .ok, r.remaining, r.resetAt, some r.limit, none⟩
      else do
        RateLimiterService.logRequestOps cfg ops identifier identifierType false .rateLimited
        pure ⟨false, .rateLimited, r.remaining, r.resetAt, some r.limit,
          some ((r.resetAt : Int) - (nowS : Int))⟩

/-- `check` over fallible operations: derive the identifier outside the
`try`, run the body, and on any thrown error fail open with the literal
`{allowed: true, reason: 'ok', remaining: 0, resetAt: 0}`. -/
def RateLimiterService.checkWithOps (cfg : Config) (ops : PipelineOps) (nowMs : Nat)
    (request : CheckRequest) : CheckResponse :=
  let identifierOpt := (truthy request.apiKey).orElse fun _ => truthy request.ip
  let identifierType : IdKind := if (truthy request.apiKey).isSome then .apiKey else .ip
  match identifierOpt with
  | none => createResponse false .invalidKey 0 0 none
  | some identifier =>
    match RateLimiterService.checkTry cfg ops nowMs request identifier identifierType with
    | .ok resp => resp
    | .error _ => createResponse true .ok 0 0 none

/-! ## Concrete scenarios -/

/-- A stand-in digest used to instantiate the opaque `hash` parameter in
concrete scenarios; the pipeline never inspects digests beyond equality. -/
def scenarioHash : String → String := fun s => "sha256:" ++ s

/-- Configuration of spec scenario 3: `burst_threshold = 5`,
`burst_window = 10 s`, `sliding = true`, `limit = 1000`, default logging
(`log_all_requests = false`). -/
def c3cfg : Config := { defaultConfig with burstThreshold := 5, defaultLimit := 1000 }

/-- The envelope of spec scenario 3. -/
def c3req : CheckRequest := ⟨some "203.0.113.7", none, none⟩

/-- One admission check of the scenario, accumulating responses. -/
def c3step (acc : List CheckResponse × Store) (t : Nat) : List CheckResponse × Store :=
  let (r, st') := RateLimiterService.check scenarioHash c3cfg t c3req acc.2
  (acc.1 ++ [r], st')

/-- Six checks for `203.0.113.7`: five within one second of
`t0 = 2024-01-19T12:00:00Z` and a sixth at `t0 + 2 s`. -/
def c3run : List CheckResponse × Store :=
  [1705665600000, 1705665600250, 1705665600500, 1705665600750, 1705665601000,
    1705665602000].foldl c3step ([], Store.empty)

/-- `ApiKeyRepository.create` on an empty key table: a key named
`scenario key` with a per-key limit of 1 request per 60 s, generated id
`kid1` and generated token `secrettoken123` (so the returned plaintext is
`rl_secrettoken123`). -/
def c1create : (ApiKeyRow × String) × List ApiKeyRow :=
  ApiKeyRepository.create scenarioHash defaultConfig 1705665600 "kid1" "secrettoken123"
    ⟨"scenario key", some 1, some 60, none⟩ []

/-- The store after creating the key of `c1create`. -/
def c1st0 : Store := { Store.empty with apiKeys := c1create.2 }

/-- An envelope carrying the plaintext key returned by `c1create`. -/
def c1req : CheckRequest := ⟨some "203.0.113.7", some "rl_secrettoken123", none⟩

/-- First admission check with the plaintext key (admitted). -/
def c1run1 : CheckResponse × Store :=
  RateLimiterService.check scenarioHash defaultConfig 1705665600000 c1req c1st0

/-- Second admission check one second later (denied: the per-key limit is
1). -/
def c1run2 : CheckResponse × Store :=
  RateLimiterService.check scenarioHash defaultConfig 1705665601000 c1req c1run1.2

/-- A key with id `kid1` (as in `c1create`) but an ample per-key limit. -/
def c2create : (ApiKeyRow × String) × List ApiKeyRow :=
  ApiKeyRepository.create scenarioHash defaultConfig 1705665600 "kid1" "secrettoken123"
    ⟨"scenario key", some 1000, some 60, none⟩ []

/-- Store holding the key of `c2create` and an active permanent admin ban
on the key's id `kid1` (kind `api_key`). -/
def c2stBanOnKeyId : Store :=
  { Store.empty with
    apiKeys := c2create.2
    bans := (BanRepository.create 1705665500 ⟨"kid1", .apiKey, "banned key id", none⟩
      "admin" []).2 }

/-- Store holding the key of `c2create` and an active permanent admin ban
on the raw plaintext token (kind `api_key`). -/
def c2stBanOnToken : Store :=
  { Store.empty with
    apiKeys := c2create.2
    bans := (BanRepository.create 1705665500
      ⟨"rl_secrettoken123", .apiKey, "banned token", none⟩ "admin" []).2 }

/-- Admission check with the valid key against the ban-on-key-id store. -/
def c2runKeyId : CheckResponse × Store :=
  RateLimiterService.check scenarioHash defaultConfig 1705665600000 c1req c2stBanOnKeyId

/-- Admission check with the valid key against the ban-on-token store. -/
def c2runToken : CheckResponse × Store :=
  RateLimiterService.check scenarioHash defaultConfig 1705665600000 c1req c2stBanOnToken

/-- Geo-blocking configuration of spec scenario 6: enabled, `CN` in the
environment blocklist. -/
def c4cfg : Config :=
  { defaultConfig with geoBlockingEnabled := true, blockedCountries := ["CN"] }

/-- The scenario-6 envelope with a given country hint. -/
def c4req (country : String) : CheckRequest :=
  ⟨some "1.2.3.4", none, some ⟨some country, none, none, none, none⟩⟩

/-- One geo-blocking admission check on the empty store. -/
def c4run (country : String) : CheckResponse × Store :=
  RateLimiterService.check scenarioHash c4cfg 1705665600000 (c4req country) Store.empty

/-- The ban table after two admin `POST /v1/bans` calls for the same
identifier (`BanRepository.create` with `created_by = 'admin'`), one second
apart with different durations. -/
def c5adminBans : List BanRow :=
  (BanRepository.create 1001 ⟨"1.2.3.4", .ip, "spam", some 200⟩ "admin"
    (BanRepository.create 1000 ⟨"1.2.3.4", .ip, "abuse", some 100⟩ "admin" []).2).2

/-! ## Operational model of the admission pipeline

Reachability for the store invariants: a run is a list of operations of the
service surface, each stamped with the `Date.now()` at which it executes;
run times are nondecreasing. -/

/-- One operation of the admission-pipeline surface: an admission check, or
one of the periodic cleanups.  (Admin ban creation is deliberately not in
this list; see the theorems on claim C5.) -/
inductive PipelineOp
  | checkOp (hash : String → String) (cfg : Config) (request : CheckRequest)
  | banCleanup
  | rlCleanup
  | logCleanup (retentionDays : Nat)

/-- Apply one pipeline operation at clock `nowMs`. -/
def applyPipelineOp (op : PipelineOp) (nowMs : Nat) (st : Store) : Store :=
  match op with
  | .checkOp hash cfg request => (RateLimiterService.check hash cfg nowMs request st).2
  | .banCleanup => { st with bans := BanRepository.cleanup (nowMs / 1000) st.bans }
  | .rlCleanup => { st with rateLimits := RateLimitRepository.cleanup (nowMs / 1000) st.rateLimits }
  | .logCleanup d => { st with requestLogs := RequestLogRepository.cleanup (nowMs / 1000) d st.requestLogs }

/-- Run a list of timestamped pipeline operations. -/
def runPipeline : Store → List (PipelineOp × Nat) → Store
  | st, [] => st
  | st, (op, t) :: rest => runPipeline (applyPipelineOp op t st) rest

/-- The operation times are nondecreasing and start no earlier than `t0`. -/
def TimesMono : Nat → List (PipelineOp × Nat) → Prop
  | _, [] => True
  | t0, (_, t) :: rest => t0 ≤ t ∧ TimesMono t rest

/-- The clock after running the list (the last operation's time). -/
def endTime : Nat → List (PipelineOp × Nat) → Nat
  | t0, [] => t0
  | _, (_, t) :: rest => endTime t rest

/-- At most one active ban row per identifier at clock second `nowS`. -/
def banInvariant (nowS : Nat) (st : Store) : Prop :=
  ∀ id ty, (activeBansFor st.bans id ty nowS).length ≤ 1

/-- Repeated fixed-window checks for one identifier at the given clock
values, returning how many were admitted. -/
def runFixedCount (cfg : RateLimitConfig) (id : String) (ty : IdKind) :
    List Nat → Store → Nat × Store
  | [], st => (0, st)
  | t :: ts, st =>
    let (r, st') := checkFixedWindow cfg t id ty st
    let (n, st'') := runFixedCount cfg id ty ts st'
    ((if r.allowed then 1 else 0) + n, st'')

/-- Pipeline operations that all fail, as when the database file is gone:
used to exercise the fail-open catch of `check`. -/
def failingOps : PipelineOps where
  banLookup := fun _ _ => .error "SQLITE_IOERR"
  keyLookup := fun _ => .error "SQLITE_IOERR"
  rlCheck := fun _ _ _ => .error "SQLITE_IOERR"
  countInWindow := fun _ _ _ => .error "SQLITE_IOERR"
  baselineRate := fun _ _ _ => .error "SQLITE_IOERR"
  autoBan := fun _ _ _ => .error "SQLITE_IOERR"
  writeLog := fun _ _ _ _ => .error "SQLITE_IOERR"

namespace Intel

/-- The ASN oracle of the classification scenarios: the lookup succeeds
for `203.0.113.9` with an ASN that is in no known-hosting or known-VPN
list. -/
def c9fetch : String → Option FetchedAsn := fun ip =>
  if ip = "203.0.113.9" then some ⟨64496, "ExampleNet", none⟩ else none

/-- The residential detection produced by the ASN-heuristic layer for the
`c9fetch` oracle on the empty store. -/
def c9residential : DetectionResult :=
  ⟨.residential, 60, "ASN 64496 (ExampleNet) appears residential", .heuristic,
    some 64496, some "ExampleNet", none⟩

/-- The layer-6 fallback detection. -/
def fallbackDetection : DetectionResult :=
  ⟨.unknown, 30, "No classification data available", .heuristic, none, none, none⟩

/-- The layer-3 Tor detection. -/
def torDetection : DetectionResult :=
  ⟨.tor, 100, "IP is a known Tor exit node", .torList, none, none, none⟩

/-- One write operation of the ip-intel repository surface. -/
inductive IntelOp
  | sync (nowS : Nat) (ips : List String)
  | cleanup (nowS : Nat)
  | upsertRep (cfg : IntelConfig) (nowS : Nat) (c : IPClassification)
  | addBlock (nowS : Nat) (identifier : String) (k : BlockKind) (reason blockedBy : String)
    (durationSeconds : Option Nat)
  | removeBlock (identifier : String) (k : BlockKind)
  | setProvCache (cfg : IntelConfig) (nowS : Nat) (ip provider : String) (r : ProviderResult)
  | upsertAsn (cfg : IntelConfig) (nowS : Nat) (asn : Nat) (org : String) (h v : Bool)
    (cc : Option String)
  | incStat (nowS : Nat) (name : String) (n : Nat)
  | classify (cfg : IntelConfig) (fetchAsn : String → Option FetchedAsn)
    (providers : List Provider) (nowS : Nat) (ip : String) (bypassCache : Bool)

/-- Apply one ip-intel operation. -/
def applyIntelOp (st : IntelStore) : IntelOp → IntelStore
  | .sync nowS ips => syncTorNodes nowS st ips
  | .cleanup nowS => runCleanup nowS st
  | .upsertRep cfg nowS c => upsertIPReputation cfg nowS st c
  | .addBlock nowS identifier k reason blockedBy d =>
    addManualBlock nowS st identifier k reason blockedBy d
  | .removeBlock identifier k => removeManualBlock st identifier k
  | .setProvCache cfg nowS ip provider r => setProviderCache cfg nowS st ip provider r
  | .upsertAsn cfg nowS asn org h v cc => upsertASNCache cfg nowS st asn org h v cc
  | .incStat nowS name n => incrementStat nowS st name n
  | .classify cfg fetchAsn providers nowS ip bypassCache =>
    (classifyIP cfg fetchAsn providers nowS st ip bypassCache).2

/-- Apply a list of ip-intel operations in order. -/
def applyIntelOps (ops : List IntelOp) (st : IntelStore) : IntelStore :=
  ops.foldl applyIntelOp st

end Intel

/-! # Theorems -/

theorem qAdd_eq (a b : ℚ) : qAdd a b = a + b := by
  have ha : ((a.den : ℚ)) ≠ 0 := by exact_mod_cast a.den_ne_zero
  have hb : ((b.den : ℚ)) ≠ 0 := by exact_mod_cast b.den_ne_zero
  rw [qAdd, Rat.mkRat_eq_divInt, Rat.divInt_eq_div]
  conv_rhs => rw [← Rat.num_div_den a, ← Rat.num_div_den b]
  push_cast
  field_simp

theorem qSub_eq (a b : ℚ) : qSub a b = a - b := by
  have ha : ((a.den : ℚ)) ≠ 0 := by exact_mod_cast a.den_ne_zero
  have hb : ((b.den : ℚ)) ≠ 0 := by exact_mod_cast b.den_ne_zero
  rw [qSub, Rat.mkRat_eq_divInt, Rat.divInt_eq_div]
  conv_rhs => rw [← Rat.num_div_den a, ← Rat.num_div_den b]
  push_cast
  field_simp
  ring

theorem qMul_eq (a b : ℚ) : qMul a b = a * b := by
  have ha : ((a.den : ℚ)) ≠ 0 := by exact_mod_cast a.den_ne_zero
  have hb : ((b.den : ℚ)) ≠ 0 := by exact_mod_cast b.den_ne_zero
  rw [qMul, Rat.mkRat_eq_divInt, Rat.divInt_eq_div]
  conv_rhs => rw [← Rat.num_div_den a, ← Rat.num_div_den b]
  push_cast
  field_simp

theorem qDiv_eq (a b : ℚ) : qDiv a b = a / b := by
  have ha : ((a.den : ℚ)) ≠ 0 := by exact_mod_cast a.den_ne_zero
  have hb : ((b.den : ℚ)) ≠ 0 := by exact_mod_cast b.den_ne_zero
  rw [qDiv, Rat.divInt_eq_div]
  rcases eq_or_ne b.num 0 with hz | hnz
  · rw [hz]
    rw [Rat.num_eq_zero.mp hz]
    push_cast
    simp
  · have hbq : (b.num : ℚ) ≠ 0 := by exact_mod_cast hnz
    conv_rhs => rw [← Rat.num_div_den a, ← Rat.num_div_den b]
    push_cast
    field_simp

/-! ## Claim theorems: plaintext-key handling (C1, C2) -/

/-- C1: the claim states that no plaintext API key — a `rl_`-prefixed
string returned by key creation — is ever written to a persistent store
row, and in particular that a denied and logged admission check carrying a
key token does not store the plaintext as the log row's identifier.  The
code violates this: `check` uses `request.apiKey` itself as the
identifier, so one admitted keyed request writes the plaintext into
`rate_limits.identifier`, and the following rate-limited denial writes it
into `request_logs.identifier`, while the key table itself holds only the
digest. -/
theorem C1_plaintext_key_written_to_store :
    c1create.1.2 = "rl_" ++ "secrettoken123"
    ∧ (c1st0.apiKeys.map (·.keyHash)) = ["sha256:rl_secrettoken123"]
    ∧ c1run1.1.allowed = true
    ∧ (c1run1.2.rateLimits.map (·.identifier)) = ["rl_secrettoken123"]
    ∧ c1run2.1.allowed = false
    ∧ c1run2.1.reason = .rateLimited
    ∧ (c1run2.2.requestLogs.map (·.identifier)) = ["rl_secrettoken123"] := by decide

/-- C2: the claim states that when a supplied API-key token resolves to an
active key, the identifier used for the ban and rate-limit lookups is the
key's id, never the raw token.  The code violates this: with a valid key
of id `kid1`, an active admin ban on `kid1` is invisible to the pipeline
(the check is admitted with reason `ok`), an active ban on the raw token
denies it, and the counter bucket is keyed by the raw token rather than
`kid1`. -/
theorem C2_identifier_is_raw_token_not_key_id :
    (isCurrentlyBanned 1705665600 "kid1" .apiKey c2stBanOnKeyId.bans).isSome = true
    ∧ c2runKeyId.1.allowed = true ∧ c2runKeyId.1.reason = .ok
    ∧ (c2runKeyId.2.rateLimits.map (·.identifier)) = ["rl_secrettoken123"]
    ∧ (c2runKeyId.2.rateLimits.all fun r => r.identifier ≠ "kid1") = true
    ∧ c2runToken.1.allowed = false ∧ c2runToken.1.reason = .banned := by decide

/-! ## Claim theorems: burst scenario (C3) -/

/-- C3: the claim states that with `burst_threshold = 5`,
`burst_window = 10 s`, sliding window, `limit = 1000` and the default
logging configuration, the fifth of five checks within one second triggers
a `Burst detection: 5` auto-ban and a sixth check is denied as banned.
The code violates this: with `log_all_requests` off the pipeline logs only
denials, so `getCountInWindow` reads 0 on every check, the detector never
fires, all six checks are admitted with reason `ok`, and both the ban
table and the request log stay empty. -/
theorem C3_burst_scenario_never_bans :
    (c3run.1.map (·.allowed)) = [true, true, true, true, true, true]
    ∧ (c3run.1.map (·.reason)) = [.ok, .ok, .ok, .ok, .ok, .ok]
    ∧ c3run.2.bans = [] ∧ c3run.2.requestLogs = [] := by decide

/-! ## Claim theorems: geo-blocking (C4) -/

/-- C4, counterexample: the claim states that with geo-blocking enabled and
`CN` blocked, an envelope with lowercase country hint `cn` is denied with
reason `geo_blocked` (case-folded comparison).  At this concrete input the
pipeline admits the request with reason `ok`: its comparison is an exact
`includes` on `config.abuse.blockedCountries`. -/
theorem C4_counterexample_lowercase_cn_admitted :
    (c4run "cn").1.allowed = true ∧ (c4run "cn").1.reason = .ok := by decide

/-- C4, amended: with geo-blocking enabled and `CN` in the configured
blocklist, the admission pipeline compares the raw country hint
case-sensitively: hint `CN` is denied with reason `geo_blocked`, hints
`cn` and `US` are admitted with reason `ok`.  Only the admin settings
registry's `isCountryBlocked` — which the admission pipeline does not
consult — uppercases before comparing. -/
theorem C4_geo_comparison_case_sensitive :
    (c4run "CN").1.allowed = false ∧ (c4run "CN").1.reason = .geoBlocked
    ∧ (c4run "cn").1.allowed = true ∧ (c4run "cn").1.reason = .ok
    ∧ (c4run "US").1.allowed = true ∧ (c4run "US").1.reason = .ok
    ∧ SettingsRepository.isCountryBlocked ["CN"] "cn" = true := by decide

/-! ## Claim theorems: ASN heuristic layer (C9) -/

/-- C9, counterexample: the claim states that for an address whose ASN
lookup succeeds with an ASN that is neither manually blocked nor a known
hosting/VPN ASN, Classify returns the ASN layer's tentative residential
classification (confidence 60, source heuristic).  At this concrete input
the layer does yield that result, but the pipeline returns the
unknown-at-30 fallback instead: 60 is below the default confidence
threshold of 70. -/
theorem C9_counterexample_residential_below_threshold :
    Intel.checkASNHeuristics Intel.c9fetch 1000 Intel.IntelStore.empty "203.0.113.9"
      = some Intel.c9residential
    ∧ (Intel.runDetectionPipeline Intel.defaultIntelConfig Intel.c9fetch [] 1000
        Intel.IntelStore.empty "203.0.113.9").1 = Intel.fallbackDetection
    ∧ Intel.c9residential.confidence = 60
    ∧ Intel.fallbackDetection ≠ Intel.c9residential := by decide

/-- C9, amended: whenever the manual-block and Tor layers pass, the ASN
lookup succeeds, and the ASN is neither manually blocked nor flagged
hosting/VPN, the ASN-heuristic layer yields the tentative residential
classification at confidence 60 with source heuristic — but under the
default configuration (confidence threshold 70) the pipeline does not stop
at that layer, and with no provider yielding a result Classify returns the
unknown fallback at confidence 30. -/
theorem C9_asn_heuristic_below_threshold (fetchAsn : String → Option Intel.FetchedAsn)
    (nowS : Nat) (st : Intel.IntelStore) (ip : String) (a : Intel.ASNCacheRecord)
    (hmb : Intel.checkManualBlocks nowS st ip = none)
    (htor : Intel.isTorExitNode st ip = false)
    (hasn : Intel.lookupASN fetchAsn nowS st ip = some a)
    (hblk : Intel.getManualBlock nowS st (toString a.asn) .asn = none)
    (hh : a.isHosting = false) (hv : a.isVpn = false) :
    Intel.checkASNHeuristics fetchAsn nowS st ip
      = some ⟨.residential, 60,
          "ASN " ++ toString a.asn ++ " (" ++ a.orgName ++ ") appears residential",
          .heuristic, some a.asn, some a.orgName, none⟩
    ∧ (Intel.runDetectionPipeline Intel.defaultIntelConfig fetchAsn [] nowS st ip).1
        = Intel.fallbackDetection := by
  have hlayer : Intel.checkASNHeuristics fetchAsn nowS st ip
      = some ⟨.residential, 60,
          "ASN " ++ toString a.asn ++ " (" ++ a.orgName ++ ") appears residential",
          .heuristic, some a.asn, some a.orgName, none⟩ := by
    rw [Intel.checkASNHeuristics, hasn]
    dsimp only
    rw [hblk]
    simp [hh, hv]
  refine ⟨hlayer, ?_⟩
  rw [Intel.runDetectionPipeline, hmb]
  simp only [Intel.defaultIntelConfig, if_true]
  rw [Intel.checkTorExitNode, htor]
  simp only [if_false, Bool.false_eq_true]
  rw [hlayer]
  simp [Intel.providersAndFallback, Intel.queryProvidersGo, Intel.fallbackDetection]

/-- Closed instance of `C9_asn_heuristic_below_threshold` at the concrete
store and oracle of the counterexample. -/
theorem C9_asn_heuristic_below_threshold_witness :
    Intel.checkASNHeuristics Intel.c9fetch 1000 Intel.IntelStore.empty "203.0.113.9"
      = some ⟨.residential, 60,
          "ASN " ++ toString (64496 : Nat) ++ " (" ++ "ExampleNet" ++ ") appears residential",
          .heuristic, some 64496, some "ExampleNet", none⟩
    ∧ (Intel.runDetectionPipeline Intel.defaultIntelConfig Intel.c9fetch [] 1000
        Intel.IntelStore.empty "203.0.113.9").1 = Intel.fallbackDetection :=
  C9_asn_heuristic_below_threshold Intel.c9fetch 1000 Intel.IntelStore.empty "203.0.113.9"
    ⟨64496, "ExampleNet", false, false, none, 1000 + 86400⟩
    (by decide) (by decide) (by decide) (by decide) rfl rfl

/-! ## Claim theorems: Tor-exit persistence (C10) -/

namespace Intel

/-- One `syncTorNodes` upsert never removes a Tor-exit membership. -/
theorem torFind_upsert (nowS : Nat) (rows : List TorNodeRow) (ipNew ip : String)
    (h : (rows.find? fun t => t.ip = ip ∧ t.isExit).isSome = true) :
    ((upsertTorNode nowS rows ipNew).find? fun t => t.ip = ip ∧ t.isExit).isSome = true := by
  simp only [List.find?_isSome, decide_eq_true_eq] at h ⊢
  obtain ⟨x, hx, hip, hexit⟩ := h
  unfold upsertTorNode
  split
  · refine ⟨if x.ip = ipNew then { x with lastSeenAt := nowS, isExit := true } else x,
      List.mem_map.mpr ⟨x, hx, rfl⟩, ?_⟩
    split
    · exact ⟨hip, rfl⟩
    · exact ⟨hip, hexit⟩
  · exact ⟨x, List.mem_cons_of_mem _ hx, hip, hexit⟩

/-- A whole `syncTorNodes` bulk upsert never removes a Tor-exit
membership. -/
theorem torFind_foldl_upsert (nowS : Nat) (ips : List String) (rows : List TorNodeRow)
    (ip : String) (h : (rows.find? fun t => t.ip = ip ∧ t.isExit).isSome = true) :
    ((ips.foldl (upsertTorNode nowS) rows).find? fun t => t.ip = ip ∧ t.isExit).isSome
      = true := by
  induction ips generalizing rows with
  | nil => simpa using h
  | cons i is ih =>
    simp only [List.foldl_cons]
    exact ih (upsertTorNode nowS rows i) (torFind_upsert nowS rows i ip h)

/-- `isTorExitNode` depends only on the `tor_nodes` table. -/
theorem isTorExitNode_congr {st st' : IntelStore} (ip : String)
    (h : st'.torNodes = st.torNodes) : isTorExitNode st' ip = isTorExitNode st ip := by
  unfold isTorExitNode
  rw [h]

/-- `queryProviders` writes only the provider cache. -/
theorem queryProvidersGo_torNodes (cfg : IntelConfig) (nowS : Nat) (ip : String)
    (providers : List Provider) (st : IntelStore) :
    (queryProvidersGo cfg nowS ip providers st).2.torNodes = st.torNodes := by
  induction providers generalizing st with
  | nil => rfl
  | cons p ps ih =>
    unfold queryProvidersGo
    split
    · split
      · rfl
      · exact ih st
    · split
      · split
        · unfold setProviderCache
          dsimp only
          split <;> rfl
        · rw [ih]
          unfold setProviderCache
          dsimp only
          split <;> rfl
      · exact ih st

/-- The detection pipeline writes only the provider cache. -/
theorem runDetectionPipeline_torNodes (cfg : IntelConfig)
    (fetchAsn : String → Option FetchedAsn) (providers : List Provider) (nowS : Nat)
    (st : IntelStore) (ip : String) :
    (runDetectionPipeline cfg fetchAsn providers nowS st ip).2.torNodes = st.torNodes := by
  have hfb : (providersAndFallback cfg providers nowS st ip).2.torNodes = st.torNodes := by
    unfold providersAndFallback
    split
    · rename_i heq
      have := queryProvidersGo_torNodes cfg nowS ip providers st
      rw [heq] at this
      exact this
    · rename_i heq
      have := queryProvidersGo_torNodes cfg nowS ip providers st
      rw [heq] at this
      exact this
  unfold runDetectionPipeline
  split
  · rfl
  · split
    · rfl
    · split
      · split
        · rfl
        · exact hfb
      · exact hfb

/-- `classifyIP` never touches the `tor_nodes` table. -/
theorem classifyIP_torNodes (cfg : IntelConfig) (fetchAsn : String → Option FetchedAsn)
    (providers : List Provider) (nowS : Nat) (st : IntelStore) (ip : String)
    (bypassCache : Bool) :
    (classifyIP cfg fetchAsn providers nowS st ip bypassCache).2.torNodes = st.torNodes := by
  have hstat : ∀ (st' : IntelStore) (name : String) (n : Nat),
      (incrementStat nowS st' name n).torNodes = st'.torNodes := by
    intro st' name n
    unfold incrementStat
    dsimp only
    split <;> rfl
  have hups : ∀ (st' : IntelStore) (c : IPClassification),
      (upsertIPReputation cfg nowS st' c).torNodes = st'.torNodes := by
    intro st' c
    unfold upsertIPReputation
    dsimp only
    split <;> rfl
  have htrack : ∀ (st' : IntelStore) (c : IPClassification),
      (trackClassificationType nowS st' c).torNodes = st'.torNodes := by
    intro st' c
    unfold trackClassificationType
    repeat' split
    all_goals exact hstat _ _ _
  unfold classifyIP
  dsimp only
  split
  · simp [hstat]
  · rename_i heq
    simp only
    rw [htrack, hups]
    have hpipe := runDetectionPipeline_torNodes cfg fetchAsn providers nowS
      (incrementStat nowS st "check" 1) ip
    rw [hpipe, hstat]

/-- Every repository write operation preserves a Tor-exit membership. -/
theorem isTorExitNode_applyIntelOp (op : IntelOp) (st : IntelStore) (ip : String)
    (h : isTorExitNode st ip = true) : isTorExitNode (applyIntelOp st op) ip = true := by
  cases op with
  | sync nowS ips =>
    unfold applyIntelOp syncTorNodes isTorExitNode
    exact torFind_foldl_upsert nowS ips st.torNodes ip h
  | cleanup nowS =>
    have hfr : (applyIntelOp st (.cleanup nowS)).torNodes = st.torNodes := rfl
    rwa [isTorExitNode_congr ip hfr]
  | upsertRep cfg nowS c =>
    have hfr : (applyIntelOp st (.upsertRep cfg nowS c)).torNodes = st.torNodes := by
      unfold applyIntelOp upsertIPReputation
      dsimp only
      split <;> rfl
    rwa [isTorExitNode_congr ip hfr]
  | addBlock nowS identifier k reason blockedBy d =>
    have hfr : (applyIntelOp st (.addBlock nowS identifier k reason blockedBy d)).torNodes
        = st.torNodes := by
      unfold applyIntelOp addManualBlock
      dsimp only
      split <;> rfl
    rwa [isTorExitNode_congr ip hfr]
  | removeBlock identifier k =>
    have hfr : (applyIntelOp st (.removeBlock identifier k)).torNodes = st.torNodes := rfl
    rwa [isTorExitNode_congr ip hfr]
  | setProvCache cfg nowS ip2 provider r =>
    have hfr : (applyIntelOp st (.setProvCache cfg nowS ip2 provider r)).torNodes
        = st.torNodes := by
      unfold applyIntelOp setProviderCache
      dsimp only
      split <;> rfl
    rwa [isTorExitNode_congr ip hfr]
  | upsertAsn cfg nowS asn org hh vv cc =>
    have hfr : (applyIntelOp st (.upsertAsn cfg nowS asn org hh vv cc)).torNodes
        = st.torNodes := by
      unfold applyIntelOp upsertASNCache
      dsimp only
      split <;> rfl
    rwa [isTorExitNode_congr ip hfr]
  | incStat nowS name n =>
    have hfr : (applyIntelOp st (.incStat nowS name n)).torNodes = st.torNodes := by
      unfold applyIntelOp incrementStat
      dsimp only
      split <;> rfl
    rwa [isTorExitNode_congr ip hfr]
  | classify cfg fetchAsn providers nowS ip2 bypassCache =>
    have hfr : (applyIntelOp st (.classify cfg fetchAsn providers nowS ip2 bypassCache)).torNodes
        = st.torNodes := classifyIP_torNodes cfg fetchAsn providers nowS st ip2 bypassCache
    rwa [isTorExitNode_congr ip hfr]

end Intel

/-- C10: once an address is in the Tor-exit table it stays there — Tor-exit
rows carry no expiry column, `syncTorNodes` only upserts (it never removes
addresses absent from a newly fetched list), `runCleanup` does not touch
`tor_nodes`, and no other repository write does either — and as long as no
cache entry or manual block shadows it, the detection pipeline still
classifies the address `tor` at confidence 100 from source `tor_list`. -/
theorem C10_tor_exit_persistence :
    (∀ (ops : List Intel.IntelOp) (st : Intel.IntelStore) (ip : String),
      Intel.isTorExitNode st ip = true →
      Intel.isTorExitNode (Intel.applyIntelOps ops st) ip = true)
    ∧ (∀ (fetchAsn : String → Option Intel.FetchedAsn) (providers : List Intel.Provider)
        (nowS : Nat) (st : Intel.IntelStore) (ip : String),
      Intel.isTorExitNode st ip = true →
      Intel.checkManualBlocks nowS st ip = none →
      (Intel.runDetectionPipeline Intel.defaultIntelConfig fetchAsn providers nowS st ip).1
        = Intel.torDetection) := by
  constructor
  · intro ops
    induction ops with
    | nil => intro st ip h; exact h
    | cons op rest ih =>
      intro st ip h
      exact ih (Intel.applyIntelOp st op) ip (Intel.isTorExitNode_applyIntelOp op st ip h)
  · intro fetchAsn providers nowS st ip htor hmb
    rw [Intel.runDetectionPipeline, hmb]
    have hdet : Intel.checkTorExitNode st ip = some Intel.torDetection := by
      rw [Intel.checkTorExitNode, htor]
      rfl
    rw [show Intel.defaultIntelConfig.torDetectionEnabled = true from rfl]
    simp only [if_true, hdet]

/-- Closed instance of `C10_tor_exit_persistence`: after syncing
`9.9.9.9`, a far-future cleanup and a sync of a list not containing it
leave it a Tor exit node, and the pipeline still classifies it `tor` at
confidence 100. -/
theorem C10_tor_exit_persistence_witness :
    Intel.isTorExitNode
      (Intel.applyIntelOps [.cleanup 99999999, .sync 5000 ["8.8.8.8"]]
        (Intel.syncTorNodes 1000 Intel.IntelStore.empty ["9.9.9.9"])) "9.9.9.9" = true
    ∧ (Intel.runDetectionPipeline Intel.defaultIntelConfig Intel.c9fetch [] 2000
        (Intel.syncTorNodes 1000 Intel.IntelStore.empty ["9.9.9.9"]) "9.9.9.9").1
        = Intel.torDetection :=
  ⟨C10_tor_exit_persistence.1 [.cleanup 99999999, .sync 5000 ["8.8.8.8"]]
      (Intel.syncTorNodes 1000 Intel.IntelStore.empty ["9.9.9.9"]) "9.9.9.9" (by decide),
    C10_tor_exit_persistence.2 Intel.c9fetch [] 2000
      (Intel.syncTorNodes 1000 Intel.IntelStore.empty ["9.9.9.9"]) "9.9.9.9"
      (by decide) (by decide)⟩

/-! ## Claim theorems: fail-open (C8) -/

/-- The scenario request of the fail-open witness. -/
def c8req : CheckRequest := ⟨some "198.51.100.4", none, none⟩

/-- C8: `check` derives the identifier outside its `try` block; if any
store operation invoked inside the block throws after the identifier has
been derived, the catch at the top of `check` returns exactly
`{allowed: true, reason: 'ok', remaining: 0, resetAt: 0}` (and logs the
error).  `checkWithOps` is total by construction, so no store error is
ever propagated to the caller. -/
theorem C8_fail_open (cfg : Config) (ops : PipelineOps) (nowMs : Nat)
    (request : CheckRequest) (identifier : String) (e : String)
    (hid : (truthy request.apiKey).orElse (fun _ => truthy request.ip) = some identifier)
    (herr : RateLimiterService.checkTry cfg ops nowMs request identifier
      (if (truthy request.apiKey).isSome then .apiKey else .ip) = .error e) :
    RateLimiterService.checkWithOps cfg ops nowMs request
      = { allowed := true, reason := .ok, remaining := 0, resetAt := 0,
          limit := none, retryAfter := none } := by
  unfold RateLimiterService.checkWithOps
  rw [hid]
  dsimp only
  rw [herr]
  rfl

/-- Closed instance of `C8_fail_open`: against a store whose every
operation throws, an admission check for a plain address fails open. -/
theorem C8_fail_open_witness :
    RateLimiterService.checkWithOps defaultConfig failingOps 1705665600000 c8req
      = { allowed := true, reason := .ok, remaining := 0, resetAt := 0,
          limit := none, retryAfter := none } :=
  C8_fail_open defaultConfig failingOps 1705665600000 c8req "198.51.100.4" "SQLITE_IOERR"
    (by decide) rfl

/-! ## Claim theorems: fixed-window counter (C6) -/

/-- Incrementing a bucket leaves its own lookup pointing at the bumped
row. -/
theorem findBucket_incrementBucket_self (rl : List RateLimitRow) (id : String)
    (ty : IdKind) (ws nowS : Nat) :
    findBucket (incrementBucket rl id ty ws nowS) id ty ws
      = (findBucket rl id ty ws).map
          (fun r => { r with requestCount := r.requestCount + 1, lastRequestAt := nowS }) := by
  unfold findBucket incrementBucket
  rw [List.find?_map]
  have hp : (fun r : RateLimitRow =>
        decide (r.identifier = id ∧ r.identifierType = ty ∧ r.windowStart = ws)) ∘
      (fun r : RateLimitRow =>
        if r.identifier = id ∧ r.identifierType = ty ∧ r.windowStart = ws then
          { r with requestCount := r.requestCount + 1, lastRequestAt := nowS }
        else r)
      = fun r : RateLimitRow =>
        decide (r.identifier = id ∧ r.identifierType = ty ∧ r.windowStart = ws) := by
    funext r
    dsimp only [Function.comp]
    by_cases hc : r.identifier = id ∧ r.identifierType = ty ∧ r.windowStart = ws
    · rw [if_pos hc]
    · rw [if_neg hc]
  rw [hp]
  cases hf : rl.find? (fun r =>
      decide (r.identifier = id ∧ r.identifierType = ty ∧ r.windowStart = ws)) with
  | none => rfl
  | some r =>
    have hr := List.find?_some hf
    simp only [decide_eq_true_eq] at hr
    simp [hr]

/-- Incrementing one bucket leaves every other bucket's lookup
unchanged. -/
theorem findBucket_incrementBucket_ne (rl : List RateLimitRow) (id : String) (ty : IdKind)
    (ws nowS : Nat) (id' : String) (ty' : IdKind) (ws' : Nat)
    (hne : ¬(id' = id ∧ ty' = ty ∧ ws' = ws)) :
    findBucket (incrementBucket rl id ty ws nowS) id' ty' ws'
      = findBucket rl id' ty' ws' := by
  unfold findBucket incrementBucket
  rw [List.find?_map]
  have hp : (fun r : RateLimitRow =>
        decide (r.identifier = id' ∧ r.identifierType = ty' ∧ r.windowStart = ws')) ∘
      (fun r : RateLimitRow =>
        if r.identifier = id ∧ r.identifierType = ty ∧ r.windowStart = ws then
          { r with requestCount := r.requestCount + 1, lastRequestAt := nowS }
        else r)
      = fun r : RateLimitRow =>
        decide (r.identifier = id' ∧ r.identifierType = ty' ∧ r.windowStart = ws') := by
    funext r
    dsimp only [Function.comp]
    by_cases hc : r.identifier = id ∧ r.identifierType = ty ∧ r.windowStart = ws
    · rw [if_pos hc]
    · rw [if_neg hc]
  rw [hp]
  cases hf : rl.find? (fun r =>
      decide (r.identifier = id' ∧ r.identifierType = ty' ∧ r.windowStart = ws')) with
  | none => rfl
  | some r =>
    have hr := List.find?_some hf
    simp only [decide_eq_true_eq] at hr
    have hnotk : ¬(r.identifier = id ∧ r.identifierType = ty ∧ r.windowStart = ws) := by
      intro hk
      exact hne ⟨hr.1 ▸ hk.1, hr.2.1 ▸ hk.2.1, hr.2.2 ▸ hk.2.2⟩
    simp [hnotk]

/-- The one-step contract of `checkFixedWindow`: window alignment,
load-or-create, allow iff below the limit, the published `remaining` and
`reset_at`, increment only when allowed, and no effect on any other
bucket. -/
theorem checkFixedWindow_spec (cfg : RateLimitConfig) (nowMs : Nat) (id : String)
    (ty : IdKind) (st : Store) :
    (checkFixedWindow cfg nowMs id ty st).1.allowed
      = decide (bucketCount st.rateLimits id ty (getWindowStart nowMs cfg.windowSeconds)
          < cfg.limit)
    ∧ (checkFixedWindow cfg nowMs id ty st).1.remaining
      = max 0 ((cfg.limit : Int)
          - bucketCount st.rateLimits id ty (getWindowStart nowMs cfg.windowSeconds)
          - (if bucketCount st.rateLimits id ty (getWindowStart nowMs cfg.windowSeconds)
              < cfg.limit then 1 else 0))
    ∧ (checkFixedWindow cfg nowMs id ty st).1.resetAt
      = getWindowStart nowMs cfg.windowSeconds + cfg.windowSeconds
    ∧ (findBucket (checkFixedWindow cfg nowMs id ty st).2.rateLimits id ty
        (getWindowStart nowMs cfg.windowSeconds)).isSome = true
    ∧ bucketCount (checkFixedWindow cfg nowMs id ty st).2.rateLimits id ty
        (getWindowStart nowMs cfg.windowSeconds)
      = bucketCount st.rateLimits id ty (getWindowStart nowMs cfg.windowSeconds)
        + (if bucketCount st.rateLimits id ty (getWindowStart nowMs cfg.windowSeconds)
            < cfg.limit then 1 else 0)
    ∧ ∀ (id' : String) (ty' : IdKind) (ws' : Nat),
        ¬(id' = id ∧ ty' = ty ∧ ws' = getWindowStart nowMs cfg.windowSeconds) →
        bucketCount (checkFixedWindow cfg nowMs id ty st).2.rateLimits id' ty' ws'
          = bucketCount st.rateLimits id' ty' ws' := by
  set ws := getWindowStart nowMs cfg.windowSeconds with hws
  cases hf : findBucket st.rateLimits id ty ws with
  | some r =>
    have hc0 : bucketCount st.rateLimits id ty ws = r.requestCount := by
      simp [bucketCount, hf]
    by_cases hlt : r.requestCount < cfg.limit
    · have heq : checkFixedWindow cfg nowMs id ty st
          = (⟨true, max 0 ((cfg.limit : Int) - r.requestCount - 1),
              ws + cfg.windowSeconds, cfg.limit, cfg.windowSeconds⟩,
            { st with rateLimits := incrementBucket st.rateLimits id ty ws (nowMs / 1000) }) := by
        simp [checkFixedWindow, bucketCount, ← hws, hf, hlt]
      rw [heq, hc0]
      refine ⟨by simp [hlt], by simp [hlt], rfl, ?_, ?_, ?_⟩
      · simp only
        rw [findBucket_incrementBucket_self, hf]
        rfl
      · simp only
        rw [bucketCount, findBucket_incrementBucket_self, hf]
        simp [hlt]
      · intro id' ty' ws' hne
        simp only
        rw [bucketCount, findBucket_incrementBucket_ne _ _ _ _ _ _ _ _ hne]
        rfl
    · have heq : checkFixedWindow cfg nowMs id ty st
          = (⟨false, max 0 ((cfg.limit : Int) - r.requestCount - 0),
              ws + cfg.windowSeconds, cfg.limit, cfg.windowSeconds⟩, st) := by
        simp [checkFixedWindow, bucketCount, ← hws, hf, hlt]
      rw [heq, hc0]
      exact ⟨by simp [hlt], by simp [hlt], rfl, by simp [hf], by simp [hlt],
        fun id' ty' ws' hne => rfl⟩
  | none =>
    have hc0 : bucketCount st.rateLimits id ty ws = 0 := by
      simp [bucketCount, hf]
    have hfind_new : findBucket ((⟨id, ty, ws, 0, nowMs / 1000⟩ : RateLimitRow)
        :: st.rateLimits) id ty ws = some ⟨id, ty, ws, 0, nowMs / 1000⟩ := by
      simp [findBucket, List.find?_cons]
    have hskip : ∀ (id' : String) (ty' : IdKind) (ws' : Nat),
        ¬(id' = id ∧ ty' = ty ∧ ws' = ws) →
        findBucket ((⟨id, ty, ws, 0, nowMs / 1000⟩ : RateLimitRow)
          :: st.rateLimits) id' ty' ws' = findBucket st.rateLimits id' ty' ws' := by
      intro id' ty' ws' hne
      have hnotk : ¬(id = id' ∧ ty = ty' ∧ ws = ws') := by
        intro hk
        exact hne ⟨hk.1.symm, hk.2.1.symm, hk.2.2.symm⟩
      simp [findBucket, List.find?_cons, hnotk]
    by_cases hlt : 0 < cfg.limit
    · have heq : checkFixedWindow cfg nowMs id ty st
          = (⟨true, max 0 ((cfg.limit : Int) - 0 - 1),
              ws + cfg.windowSeconds, cfg.limit, cfg.windowSeconds⟩,
            { st with rateLimits :=
              (incrementBucket ((⟨id, ty, ws, 0, nowMs / 1000⟩ : RateLimitRow)
                :: st.rateLimits) id ty ws (nowMs / 1000)) }) := by
        simp [checkFixedWindow, bucketCount, ← hws, hf, hfind_new, hlt]
      rw [heq, hc0]
      refine ⟨by simp [hlt], by simp [hlt], rfl, ?_, ?_, ?_⟩
      · simp only
        rw [findBucket_incrementBucket_self, hfind_new]
        rfl
      · simp only
        rw [bucketCount, findBucket_incrementBucket_self, hfind_new]
        simp [hlt]
      · intro id' ty' ws' hne
        simp only
        rw [bucketCount, findBucket_incrementBucket_ne _ _ _ _ _ _ _ _ hne,
          hskip id' ty' ws' hne]
        rfl
    · have heq : checkFixedWindow cfg nowMs id ty st
          = (⟨false, max 0 ((cfg.limit : Int) - 0 - 0),
              ws + cfg.windowSeconds, cfg.limit, cfg.windowSeconds⟩,
            { st with rateLimits :=
              (⟨id, ty, ws, 0, nowMs / 1000⟩ : RateLimitRow) :: st.rateLimits }) := by
        simp [checkFixedWindow, bucketCount, ← hws, hf, hfind_new, hlt]
      rw [heq, hc0]
      refine ⟨by simp [hlt], by simp [hlt], rfl, by simp [hfind_new], ?_, ?_⟩
      · simp only
        rw [bucketCount, hfind_new]
        simp [hlt]
      · intro id' ty' ws' hne
        simp only
        rw [bucketCount, hskip id' ty' ws' hne]
        rfl

/-- Capacity bound for a run of fixed-window checks in one aligned
window, relative to the initial bucket count. -/
theorem runFixedCount_le_sub (cfg : RateLimitConfig) (id : String) (ty : IdKind)
    (times : List Nat) (st : Store) (ws : Nat)
    (hws : ∀ t ∈ times, getWindowStart t cfg.windowSeconds = ws) :
    (runFixedCount cfg id ty times st).1
      ≤ cfg.limit - bucketCount st.rateLimits id ty ws := by
  induction times generalizing st with
  | nil => simp [runFixedCount]
  | cons t ts ih =>
    have hw : getWindowStart t cfg.windowSeconds = ws := hws t (List.mem_cons_self t ts)
    have hspec := checkFixedWindow_spec cfg t id ty st
    rw [hw] at hspec
    obtain ⟨hallow, -, -, -, hcnt, -⟩ := hspec
    unfold runFixedCount
    rcases hchk : checkFixedWindow cfg t id ty st with ⟨r, st2⟩
    rw [hchk] at hallow hcnt
    dsimp only at hallow hcnt ⊢
    have hrest := ih st2 (fun t' ht' => hws t' (List.mem_cons_of_mem t ht'))
    rcases hrun : runFixedCount cfg id ty ts st2 with ⟨n, st3⟩
    rw [hrun] at hrest
    dsimp only at hrest
    by_cases hlt : bucketCount st.rateLimits id ty ws < cfg.limit
    · rw [if_pos hlt] at hcnt
      rw [hcnt] at hrest
      have hallow2 : r.allowed = true := by
        rw [hallow]
        exact decide_eq_true hlt
      rw [hallow2]
      simp only [if_true]
      omega
    · rw [if_neg hlt] at hcnt
      rw [hcnt] at hrest
      have hallow2 : r.allowed = false := by
        rw [hallow]
        exact decide_eq_false hlt
      rw [hallow2]
      simp only [Bool.false_eq_true, if_false]
      omega

/-- C6: `checkFixedWindow` aligns the window start to
`floor(now / window_seconds) * window_seconds`, loads or creates the
bucket there, allows iff its count is below the limit, increments only
when allowed (touching no other bucket), publishes
`remaining = max(0, limit - c - (allowed ? 1 : 0))` and
`reset_at = window_start + window_seconds`; consequently, any run of
checks falling in one aligned window admits at most `limit` requests. -/
theorem C6_fixed_window :
    (∀ (cfg : RateLimitConfig) (nowMs : Nat) (id : String) (ty : IdKind) (st : Store),
      getWindowStart nowMs cfg.windowSeconds
        = nowMs / 1000 / cfg.windowSeconds * cfg.windowSeconds
      ∧ (checkFixedWindow cfg nowMs id ty st).1.allowed
        = decide (bucketCount st.rateLimits id ty (getWindowStart nowMs cfg.windowSeconds)
            < cfg.limit)
      ∧ (checkFixedWindow cfg nowMs id ty st).1.remaining
        = max 0 ((cfg.limit : Int)
            - bucketCount st.rateLimits id ty (getWindowStart nowMs cfg.windowSeconds)
            - (if bucketCount st.rateLimits id ty (getWindowStart nowMs cfg.windowSeconds)
                < cfg.limit then 1 else 0))
      ∧ (checkFixedWindow cfg nowMs id ty st).1.resetAt
        = getWindowStart nowMs cfg.windowSeconds + cfg.windowSeconds
      ∧ (findBucket (checkFixedWindow cfg nowMs id ty st).2.rateLimits id ty
          (getWindowStart nowMs cfg.windowSeconds)).isSome = true
      ∧ bucketCount (checkFixedWindow cfg nowMs id ty st).2.rateLimits id ty
          (getWindowStart nowMs cfg.windowSeconds)
        = bucketCount st.rateLimits id ty (getWindowStart nowMs cfg.windowSeconds)
          + (if bucketCount st.rateLimits id ty (getWindowStart nowMs cfg.windowSeconds)
              < cfg.limit then 1 else 0)
      ∧ ∀ (id' : String) (ty' : IdKind) (ws' : Nat),
          ¬(id' = id ∧ ty' = ty ∧ ws' = getWindowStart nowMs cfg.windowSeconds) →
          bucketCount (checkFixedWindow cfg nowMs id ty st).2.rateLimits id' ty' ws'
            = bucketCount st.rateLimits id' ty' ws')
    ∧ (∀ (cfg : RateLimitConfig) (id : String) (ty : IdKind) (times : List Nat)
        (st : Store) (ws : Nat),
        (∀ t ∈ times, getWindowStart t cfg.windowSeconds = ws) →
        (runFixedCount cfg id ty times st).1 ≤ cfg.limit) := by
  constructor
  · intro cfg nowMs id ty st
    exact ⟨rfl, checkFixedWindow_spec cfg nowMs id ty st⟩
  · intro cfg id ty times st ws hws
    exact le_trans (runFixedCount_le_sub cfg id ty times st ws hws) (Nat.sub_le _ _)

/-- Closed instance of `C6_fixed_window`: the contract at a concrete
store, and the capacity bound for four checks in one 60 s window at
limit 3. -/
theorem C6_fixed_window_witness :
    ((checkFixedWindow ⟨3, 60, false⟩ 1705665600000 "203.0.113.7" .ip Store.empty).1.allowed
      = decide (bucketCount Store.empty.rateLimits "203.0.113.7" .ip
          (getWindowStart 1705665600000 60) < 3))
    ∧ (runFixedCount ⟨3, 60, false⟩ "203.0.113.7" .ip
        [1705665600000, 1705665605000, 1705665610000, 1705665612000] Store.empty).1 ≤ 3 :=
  ⟨(C6_fixed_window.1 ⟨3, 60, false⟩ 1705665600000 "203.0.113.7" .ip Store.empty).2.1,
    C6_fixed_window.2 ⟨3, 60, false⟩ "203.0.113.7" .ip
      [1705665600000, 1705665605000, 1705665610000, 1705665612000] Store.empty 1705665600
      (by decide)⟩

/-! ## Claim theorems: sliding-window counter (C7) -/

/-- `checkSlidingWindow` with its rational arithmetic rewritten to the
standard `ℚ` operations. -/
theorem checkSlidingWindow_eq (cfg : RateLimitConfig) (nowMs : Nat) (id : String)
    (ty : IdKind) (st : Store) :
    checkSlidingWindow cfg nowMs id ty st =
      (⟨decide ((bucketCount st.rateLimits id ty
            (getWindowStart nowMs cfg.windowSeconds - cfg.windowSeconds) : ℚ)
            * (max 0 ((((cfg.windowSeconds * 1000 : Nat) : ℚ)
                - ((nowMs : ℚ) - ((getWindowStart nowMs cfg.windowSeconds * 1000 : Nat) : ℚ)))
              / ((cfg.windowSeconds * 1000 : Nat) : ℚ)))
            + (bucketCount st.rateLimits id ty (getWindowStart nowMs cfg.windowSeconds) : ℚ)
          < (cfg.limit : ℚ)),
        max 0 ⌊(cfg.limit : ℚ)
          - ((bucketCount st.rateLimits id ty
              (getWindowStart nowMs cfg.windowSeconds - cfg.windowSeconds) : ℚ)
            * (max 0 ((((cfg.windowSeconds * 1000 : Nat) : ℚ)
                - ((nowMs : ℚ) - ((getWindowStart nowMs cfg.windowSeconds * 1000 : Nat) : ℚ)))
              / ((cfg.windowSeconds * 1000 : Nat) : ℚ)))
            + (bucketCount st.rateLimits id ty (getWindowStart nowMs cfg.windowSeconds) : ℚ))
          - (if decide ((bucketCount st.rateLimits id ty
                (getWindowStart nowMs cfg.windowSeconds - cfg.windowSeconds) : ℚ)
              * (max 0 ((((cfg.windowSeconds * 1000 : Nat) : ℚ)
                  - ((nowMs : ℚ)
                    - ((getWindowStart nowMs cfg.windowSeconds * 1000 : Nat) : ℚ)))
                / ((cfg.windowSeconds * 1000 : Nat) : ℚ)))
              + (bucketCount st.rateLimits id ty
                  (getWindowStart nowMs cfg.windowSeconds) : ℚ)
            < (cfg.limit : ℚ)) then 1 else 0)⌋,
        (nowMs + cfg.windowSeconds * 1000) / 1000, cfg.limit, cfg.windowSeconds⟩,
      { st with rateLimits :=
        if decide ((bucketCount st.rateLimits id ty
              (getWindowStart nowMs cfg.windowSeconds - cfg.windowSeconds) : ℚ)
            * (max 0 ((((cfg.windowSeconds * 1000 : Nat) : ℚ)
                - ((nowMs : ℚ) - ((getWindowStart nowMs cfg.windowSeconds * 1000 : Nat) : ℚ)))
              / ((cfg.windowSeconds * 1000 : Nat) : ℚ)))
            + (bucketCount st.rateLimits id ty (getWindowStart nowMs cfg.windowSeconds) : ℚ)
          < (cfg.limit : ℚ)) then
          (match findBucket st.rateLimits id ty (getWindowStart nowMs cfg.windowSeconds) with
            | some _ => incrementBucket st.rateLimits id ty
                (getWindowStart nowMs cfg.windowSeconds) (nowMs / 1000)
            | none => (⟨id, ty, getWindowStart nowMs cfg.windowSeconds, 1,
                nowMs / 1000⟩ : RateLimitRow) :: st.rateLimits)
        else st.rateLimits }) := by
  simp only [checkSlidingWindow, qSub_eq, qDiv_eq, qMul_eq, qAdd_eq]

/-- C7: `checkSlidingWindow` computes
`effective = prev * max(0, (windowMs - elapsed)/windowMs) + cur` over the
current and previous aligned buckets (a missing bucket counting 0), allows
iff `effective < limit`, publishes
`remaining = max(0, floor(limit - effective - 1))` (the code subtracts
`allowed ? 1 : 0`, which coincides with the claim's `- 1` because a denial
already clamps to 0) and `reset_at = now + window_seconds`, increments the
current bucket — creating it if absent — exactly when allowed and touches
nothing else, and at `elapsed = 0` the overlap weight is 1 so the
effective count is `prev + cur`. -/
theorem C7_sliding_window (cfg : RateLimitConfig) (nowMs : Nat) (id : String) (ty : IdKind)
    (st : Store) (hW : 0 < cfg.windowSeconds) :
    let W := cfg.windowSeconds
    let ws := getWindowStart nowMs W
    let cur : ℚ := (bucketCount st.rateLimits id ty ws : ℚ)
    let prev : ℚ := (bucketCount st.rateLimits id ty (ws - W) : ℚ)
    let elapsed : ℚ := (nowMs : ℚ) - ((ws * 1000 : Nat) : ℚ)
    let overlap : ℚ := max 0 ((((W * 1000 : Nat) : ℚ) - elapsed) / ((W * 1000 : Nat) : ℚ))
    let eff : ℚ := prev * overlap + cur
    (checkSlidingWindow cfg nowMs id ty st).1.allowed = decide (eff < (cfg.limit : ℚ))
    ∧ (checkSlidingWindow cfg nowMs id ty st).1.remaining
        = max 0 ⌊(cfg.limit : ℚ) - eff - 1⌋
    ∧ (checkSlidingWindow cfg nowMs id ty st).1.resetAt = nowMs / 1000 + W
    ∧ (eff < (cfg.limit : ℚ) →
        bucketCount (checkSlidingWindow cfg nowMs id ty st).2.rateLimits id ty ws
          = bucketCount st.rateLimits id ty ws + 1
        ∧ ∀ (id' : String) (ty' : IdKind) (ws' : Nat),
            ¬(id' = id ∧ ty' = ty ∧ ws' = ws) →
            bucketCount (checkSlidingWindow cfg nowMs id ty st).2.rateLimits id' ty' ws'
              = bucketCount st.rateLimits id' ty' ws')
    ∧ (¬ eff < (cfg.limit : ℚ) → (checkSlidingWindow cfg nowMs id ty st).2 = st)
    ∧ (elapsed = 0 → overlap = 1 ∧ eff = prev + cur) := by
  intro W ws cur prev elapsed overlap eff
  have hWnz : (W * 1000 : Nat) ≠ 0 := by
    have := hW
    omega
  have hWq : ((W * 1000 : Nat) : ℚ) ≠ 0 := by exact_mod_cast hWnz
  rw [checkSlidingWindow_eq]
  refine ⟨rfl, ?_, ?_, ?_, ?_, ?_⟩
  · show (max 0 ⌊(cfg.limit : ℚ) - eff - (if decide (eff < (cfg.limit : ℚ)) then 1 else 0)⌋)
      = max 0 ⌊(cfg.limit : ℚ) - eff - 1⌋
    by_cases hlt : eff < (cfg.limit : ℚ)
    · rw [if_pos (by simpa using hlt)]
    · rw [if_neg (by simpa using hlt)]
      have hle : (cfg.limit : ℚ) - eff ≤ 0 := by
        have := not_lt.mp hlt
        linarith
      have h1 : ⌊(cfg.limit : ℚ) - eff - 0⌋ ≤ 0 := by
        rw [sub_zero]
        exact Int.floor_nonpos hle
      have h2 : ⌊(cfg.limit : ℚ) - eff - 1⌋ ≤ 0 := by
        apply Int.floor_nonpos
        linarith
      rw [max_eq_left h1, max_eq_left h2]
  · show (nowMs + W * 1000) / 1000 = nowMs / 1000 + W
    rw [Nat.mul_comm W 1000, Nat.add_mul_div_left _ _ (by norm_num : 0 < 1000)]
  · intro hlt
    have hall : decide (eff < (cfg.limit : ℚ)) = true := decide_eq_true hlt
    constructor
    · show bucketCount (if decide (eff < (cfg.limit : ℚ)) then _ else st.rateLimits) id ty ws
        = bucketCount st.rateLimits id ty ws + 1
      rw [hall, if_pos rfl]
      cases hfb : findBucket st.rateLimits id ty ws with
      | some r =>
        have hc0 : bucketCount st.rateLimits id ty ws = r.requestCount := by
          simp [bucketCount, hfb]
        rw [hc0, bucketCount, findBucket_incrementBucket_self, hfb]
        rfl
      | none =>
        have hc0 : bucketCount st.rateLimits id ty ws = 0 := by
          simp [bucketCount, hfb]
        rw [hc0, bucketCount]
        simp [findBucket, List.find?_cons]
    · intro id' ty' ws' hne
      show bucketCount (if decide (eff < (cfg.limit : ℚ)) then _ else st.rateLimits) id' ty' ws'
        = bucketCount st.rateLimits id' ty' ws'
      rw [hall, if_pos rfl]
      cases hfb : findBucket st.rateLimits id ty ws with
      | some r =>
        rw [bucketCount, findBucket_incrementBucket_ne _ _ _ _ _ _ _ _ hne]
        rfl
      | none =>
        have hnotk : ¬(id = id' ∧ ty = ty' ∧ ws = ws') := by
          intro hk
          exact hne ⟨hk.1.symm, hk.2.1.symm, hk.2.2.symm⟩
        rw [bucketCount]
        rw [show findBucket ((⟨id, ty, ws, 1, nowMs / 1000⟩ : RateLimitRow)
            :: st.rateLimits) id' ty' ws' = findBucket st.rateLimits id' ty' ws' from by
          simp [findBucket, List.find?_cons, hnotk]]
        rfl
  · intro hge
    have hall : decide (eff < (cfg.limit : ℚ)) = false := decide_eq_false hge
    show ({ st with rateLimits :=
      if (decide (eff < (cfg.limit : ℚ))) = true then
        (match findBucket st.rateLimits id ty ws with
          | some _ => incrementBucket st.rateLimits id ty ws (nowMs / 1000)
          | none => (⟨id, ty, ws, 1, nowMs / 1000⟩ : RateLimitRow) :: st.rateLimits)
      else st.rateLimits } : Store) = st
    rw [hall]
    simp only [Bool.false_eq_true, if_false]
  · intro h0
    have hov : overlap = 1 := by
      show max 0 ((((W * 1000 : Nat) : ℚ) - elapsed) / ((W * 1000 : Nat) : ℚ)) = 1
      rw [h0, sub_zero, div_self hWq]
      exact max_eq_right zero_le_one
    exact ⟨hov, by rw [show eff = prev * overlap + cur from rfl, hov, mul_one]⟩

/-- Closed instance of `C7_sliding_window` at a concrete clock, window and
store. -/
theorem C7_sliding_window_witness :
    0 < (60 : Nat)
    ∧ ((checkSlidingWindow ⟨1000, 60, true⟩ 1705665600000 "203.0.113.7" .ip
        Store.empty).1.allowed
      = decide (((bucketCount Store.empty.rateLimits "203.0.113.7" .ip
            (getWindowStart 1705665600000 60 - 60) : ℚ)
          * (max 0 ((((60 * 1000 : Nat) : ℚ)
              - ((1705665600000 : ℚ)
                - ((getWindowStart 1705665600000 60 * 1000 : Nat) : ℚ)))
            / ((60 * 1000 : Nat) : ℚ)))
          + (bucketCount Store.empty.rateLimits "203.0.113.7" .ip
              (getWindowStart 1705665600000 60) : ℚ)) < ((1000 : Nat) : ℚ))) :=
  ⟨by decide,
    (C7_sliding_window ⟨1000, 60, true⟩ 1705665600000 "203.0.113.7" .ip Store.empty
      (by decide)).1⟩

/-! ## Claim theorems: active-ban uniqueness (C5) -/

/-- Writing a request log never touches the ban table. -/
theorem logRequest_bans (cfg : Config) (nowS : Nat) (request : CheckRequest) (id : String)
    (ty : IdKind) (allowed : Bool) (reason : Reason) (st : Store) :
    (RateLimiterService.logRequest cfg nowS request id ty allowed reason st).bans
      = st.bans := by
  unfold RateLimiterService.logRequest
  dsimp only
  split <;> rfl

/-- The counter store never touches the ban table. -/
theorem rateLimitCheck_bans (cfg : RateLimitConfig) (nowMs : Nat) (id : String)
    (ty : IdKind) (st : Store) :
    (RateLimitRepository.check cfg nowMs id ty st).2.bans = st.bans := by
  unfold RateLimitRepository.check
  split <;> rfl

/-- The abuse detector either leaves the ban table alone or prepends one
system auto-ban with the configured default duration. -/
theorem detectAbuse_bans (cfg : Config) (nowS : Nat) (id : String) (ty : IdKind)
    (st : Store) :
    (RateLimiterService.detectAbuse cfg nowS id ty st).2.bans = st.bans
    ∨ ∃ reason, (RateLimiterService.detectAbuse cfg nowS id ty st).2.bans
        = BanRepository.mkBan nowS ⟨id, ty, reason, some cfg.defaultBanDurationSeconds⟩
            "system" :: st.bans := by
  unfold RateLimiterService.detectAbuse
  dsimp only
  split
  · exact Or.inr ⟨_, rfl⟩
  · split
    · exact Or.inr ⟨_, rfl⟩
    · exact Or.inl rfl

/-- Steps 4–6 of the pipeline either leave the ban table alone or prepend
one system auto-ban. -/
theorem rateStage_bans (cfg : Config) (nowMs : Nat) (request : CheckRequest)
    (identifier : String) (ty : IdKind) (rlcfg : RateLimitConfig) (st : Store) :
    (RateLimiterService.rateStage cfg nowMs request identifier ty rlcfg st).2.bans = st.bans
    ∨ ∃ reason,
        (RateLimiterService.rateStage cfg nowMs request identifier ty rlcfg st).2.bans
          = BanRepository.mkBan (nowMs / 1000)
              ⟨identifier, ty, reason, some cfg.defaultBanDurationSeconds⟩ "system"
            :: st.bans := by
  unfold RateLimiterService.rateStage
  dsimp only
  rcases hrl : RateLimitRepository.check rlcfg nowMs identifier ty st with ⟨r, st2⟩
  have hst2 : st2.bans = st.bans := by
    have := rateLimitCheck_bans rlcfg nowMs identifier ty st
    rw [hrl] at this
    exact this
  dsimp only
  split
  · rcases hab : RateLimiterService.detectAbuse cfg (nowMs / 1000) identifier ty st2
      with ⟨fired, st3⟩
    have hd := detectAbuse_bans cfg (nowMs / 1000) identifier ty st2
    rw [hab] at hd
    dsimp only at hd
    dsimp only
    split
    · rw [logRequest_bans]
      rcases hd with hd | ⟨reason, hd⟩
      · exact Or.inl (hd.trans hst2)
      · exact Or.inr ⟨reason, by rw [hd, hst2]⟩
    · unfold RateLimiterService.finishRate
      dsimp only
      rw [logRequest_bans]
      rcases hd with hd | ⟨reason, hd⟩
      · exact Or.inl (hd.trans hst2)
      · exact Or.inr ⟨reason, by rw [hd, hst2]⟩
  · unfold RateLimiterService.finishRate
    dsimp only
    rw [logRequest_bans]
    exact Or.inl hst2

/-- The admission pipeline either leaves the ban table alone or prepends
one system auto-ban for an identifier that had no active ban at the time
of the check. -/
theorem check_bans (hash : String → String) (cfg : Config) (nowMs : Nat)
    (request : CheckRequest) (st : Store) :
    (RateLimiterService.check hash cfg nowMs request st).2.bans = st.bans
    ∨ ∃ id ty reason,
        isCurrentlyBanned (nowMs / 1000) id ty st.bans = none
        ∧ (RateLimiterService.check hash cfg nowMs request st).2.bans
          = BanRepository.mkBan (nowMs / 1000)
              ⟨id, ty, reason, some cfg.defaultBanDurationSeconds⟩ "system" :: st.bans := by
  unfold RateLimiterService.check
  dsimp only
  split
  · exact Or.inl rfl
  · rename_i identifier hident
    split
    · rw [logRequest_bans]
      exact Or.inl rfl
    · rename_i hban
      split
      · rw [logRequest_bans]
        exact Or.inl rfl
      · split
        · rename_i tokenValue htok
          rcases hlk : ApiKeyRepository.lookupByKey hash (nowMs / 1000) tokenValue st.apiKeys
            with ⟨found, keys⟩
          dsimp only
          cases found with
          | none =>
            rw [logRequest_bans]
            exact Or.inl rfl
          | some apiKey =>
            dsimp only
            split
            · rw [logRequest_bans]
              exact Or.inl rfl
            · have hr := rateStage_bans cfg nowMs request identifier
                (if (truthy request.apiKey).isSome = true then IdKind.apiKey else IdKind.ip)
                ⟨apiKey.rateLimit, apiKey.windowSeconds, cfg.useSlidingWindow⟩
                { st with apiKeys := keys }
              rcases hr with hr | ⟨reason, hr⟩
              · exact Or.inl hr
              · exact Or.inr ⟨identifier, _, reason, hban, hr⟩
        · have hr := rateStage_bans cfg nowMs request identifier
            (if (truthy request.apiKey).isSome = true then IdKind.apiKey else IdKind.ip)
            ⟨cfg.defaultLimit, cfg.defaultWindowSeconds, cfg.useSlidingWindow⟩ st
          rcases hr with hr | ⟨reason, hr⟩
          · exact Or.inl hr
          · exact Or.inr ⟨identifier, _, reason, hban, hr⟩

/-- Filtering with a stronger predicate keeps no more elements. -/
theorem length_filter_le_of_imp {α : Type} (l : List α) (p q : α → Bool)
    (h : ∀ x, p x = true → q x = true) :
    (l.filter p).length ≤ (l.filter q).length := by
  induction l with
  | nil => simp
  | cons a t ih =>
    by_cases hp : p a = true
    · rw [List.filter_cons_of_pos hp, List.filter_cons_of_pos (h a hp)]
      simpa using ih
    · rw [List.filter_cons_of_neg (by simpa using hp)]
      by_cases hq : q a = true
      · rw [List.filter_cons_of_pos hq]
        exact le_trans ih (by simp)
      · rw [List.filter_cons_of_neg (by simpa using hq)]
        exact ih

/-- The set of active bans only shrinks as the clock advances. -/
theorem banInvariant_mono {st : Store} {n n' : Nat} (h : n ≤ n')
    (hinv : banInvariant n st) : banInvariant n' st := by
  intro id ty
  refine le_trans (length_filter_le_of_imp _ _ _ ?_) (hinv id ty)
  intro b hb
  simp only [decide_eq_true_eq] at hb ⊢
  refine ⟨hb.1, hb.2.1, ?_⟩
  have h2 := hb.2.2
  unfold banActive at h2 ⊢
  cases hea : b.expiresAt with
  | none => rfl
  | some e =>
    rw [hea] at h2
    simp only [decide_eq_true_eq] at h2 ⊢
    omega

/-- The ban invariant depends only on the ban table. -/
theorem banInvariant_congr {st st' : Store} {n : Nat} (h : st'.bans = st.bans)
    (hinv : banInvariant n st) : banInvariant n st' := by
  intro id ty
  rw [show st'.bans = st.bans from h]
  exact hinv id ty

/-- One pipeline operation preserves the at-most-one-active-ban
invariant at its own clock. -/
theorem banInvariant_step (op : PipelineOp) (t : Nat) (st : Store)
    (hinv : banInvariant (t / 1000) st) :
    banInvariant (t / 1000) (applyPipelineOp op t st) := by
  cases op with
  | checkOp hash cfg request =>
    rcases check_bans hash cfg t request st with h | ⟨id, ty, reason, hnone, heq⟩
    · exact banInvariant_congr h hinv
    · intro id0 ty0
      unfold applyPipelineOp
      unfold activeBansFor
      rw [heq]
      have hold : activeBansFor st.bans id ty (t / 1000) = [] := by
        have := hnone
        unfold isCurrentlyBanned at this
        exact List.head?_eq_none_iff.mp this
      by_cases hk : id0 = id ∧ ty0 = ty
      · obtain ⟨h1, h2⟩ := hk
        subst h1
        subst h2
        unfold activeBansFor at hold
        rw [List.filter_cons]
        split
        · rw [hold]
          simp
        · rw [hold]
          simp
      · rw [List.filter_cons]
        have hnp : ¬(((BanRepository.mkBan (t / 1000)
            ⟨id, ty, reason, some cfg.defaultBanDurationSeconds⟩ "system").identifier = id0
            ∧ (BanRepository.mkBan (t / 1000)
              ⟨id, ty, reason, some cfg.defaultBanDurationSeconds⟩ "system").identifierType
                = ty0
            ∧ banActive (t / 1000) (BanRepository.mkBan (t / 1000)
              ⟨id, ty, reason, some cfg.defaultBanDurationSeconds⟩ "system") = true)) := by
          intro hc
          exact hk ⟨hc.1.symm, hc.2.1.symm⟩
        rw [if_neg (by simpa using hnp)]
        exact hinv id0 ty0
  | banCleanup =>
    intro id ty
    unfold applyPipelineOp BanRepository.cleanup
    unfold activeBansFor
    exact le_trans
      (List.Sublist.length_le (List.Sublist.filter _ (List.filter_sublist st.bans)))
      (hinv id ty)
  | rlCleanup => exact banInvariant_congr rfl hinv
  | logCleanup d => exact banInvariant_congr rfl hinv

/-- Any time-monotone run of pipeline operations preserves the ban
invariant, judged at the clock of the last operation. -/
theorem banInvariant_run (ops : List (PipelineOp × Nat)) (t0 : Nat) (st : Store)
    (hmono : TimesMono t0 ops) (hinv : banInvariant (t0 / 1000) st) :
    banInvariant (endTime t0 ops / 1000) (runPipeline st ops) := by
  induction ops generalizing t0 st with
  | nil => exact hinv
  | cons p rest ih =>
    obtain ⟨op, t⟩ := p
    obtain ⟨hle, hrest⟩ := hmono
    exact ih t (applyPipelineOp op t st) hrest
      (banInvariant_step op t st (banInvariant_mono (Nat.div_le_div_right hle) hinv))

/-- C5, counterexample: the claim asserts at most one active ban row per
identifier in every reachable store state.  The admin surface refutes it:
two `POST /v1/bans` calls (`BanRepository.create` with
`created_by = 'admin'`) one second apart with durations 100 s and 200 s
leave two rows for `1.2.3.4` that are both active at the time of the
second call — the `UNIQUE(identifier, identifier_type, expires_at)`
constraint only dedups identical expiry instants. -/
theorem C5_counterexample_two_active_admin_bans :
    (activeBansFor c5adminBans "1.2.3.4" .ip 1001).length = 2 := by decide

/-- C5, amended: restricted to stores reachable by the admission pipeline
itself (admission checks and the periodic cleanups, so that every ban row
is a detector auto-ban), at most one active ban row exists per identifier
at the current clock; in particular however often the abuse detector
fires for an identifier, the earlier auto-ban rows are expired history by
the time a new one is created, because the detector only runs when the
step-2 ban lookup found no active ban. -/
theorem C5_pipeline_at_most_one_active_ban (ops : List (PipelineOp × Nat)) (t0 : Nat)
    (hmono : TimesMono t0 ops) (id : String) (ty : IdKind) :
    (activeBansFor (runPipeline Store.empty ops).bans id ty
      (endTime t0 ops / 1000)).length ≤ 1 :=
  banInvariant_run ops t0 Store.empty hmono
    (fun _ _ => by simp [activeBansFor, Store.empty]) id ty

/-- Closed instance of `C5_pipeline_at_most_one_active_ban` on a concrete
two-operation run. -/
theorem C5_pipeline_at_most_one_active_ban_witness :
    (activeBansFor (runPipeline Store.empty
        [(.checkOp scenarioHash c3cfg c3req, 1705665600000),
          (.banCleanup, 1705665601000)]).bans "203.0.113.7" .ip
      (endTime 0 [((.checkOp scenarioHash c3cfg c3req : PipelineOp), 1705665600000),
          ((.banCleanup : PipelineOp), 1705665601000)] / 1000)).length ≤ 1 :=
  C5_pipeline_at_most_one_active_ban
    [(.checkOp scenarioHash c3cfg c3req, 1705665600000), (.banCleanup, 1705665601000)] 0
    ⟨by decide, by decide, trivial⟩ "203.0.113.7" .ip

end Erads
